import Mathlib

/-!
Verification of the thermal sizing engine of the GeothermieErdsondentool
repository (`src/calculations/`): the g-function module `g_functions.py`,
the VDI 4640 sizer `vdi4640.py`, the thermal resistance module `thermal.py`
and the iterative sizer `borehole.py`.

Modelling conventions (shallow embedding):
* Python floats are modelled as real numbers `ℝ`.
* Python operations that can raise (`x / y` raising `ZeroDivisionError`,
  `math.log` / `math.sqrt` raising a domain `ValueError`, `float ** float`
  with a negative base producing a complex number, `max([])`, list
  indexing out of range, an explicit `raise ValueError`) are modelled in
  the `Except String` monad via the `py*` primitives below.
* Division by a nonzero numeric literal is written with plain `/`, since it
  can never raise.
* Python `round(x, n)` is modelled as rounding `x` to the nearest multiple
  of `10 ^ (-n)`; Python rounds exact ties to even, which no statement in
  this file depends on.
* Linear interpolation with extrapolation from
  `scipy.interpolate.interp1d(kind="linear", fill_value="extrapolate")` is
  modelled by `interp_segments` below.
* The `print` of a warning in `BoreholeCalculator.calculate_required_depth`
  has no effect on the returned value; `sizing_loop` additionally returns
  the number of executed loop iterations and whether the warning was
  printed, and `calculate_required_depth` discards both, like the Python
  code does.
-/

noncomputable section

/-- Message of a Python `ZeroDivisionError`. -/
def zero_division_error : String := "ZeroDivisionError: division by zero"

/-- Message of a Python `ValueError` raised by `math.log` / `math.sqrt`. -/
def math_domain_error : String := "ValueError: math domain error"

/-- Marker for a Python `float ** float` returning a complex number. -/
def complex_power_result : String := "complex result from float power"

/-- Message of the `ValueError` raised by `VDI4640Calculator._calculate_borehole_length`. -/
def invalid_delta_t_error : String := "ValueError: Ungueltige Temperaturdifferenz"

/-- Message of the `ValueError` raised by `max` on an empty sequence. -/
def max_empty_error : String := "ValueError: max() arg is an empty sequence"

/-- Message of a Python `IndexError`. -/
def index_error : String := "IndexError: list index out of range"

/-- Marker for the unreachable case of a loop with a zero iteration budget. -/
def no_iteration_error : String := "loop body never entered"

/-- Python division `a / b`: raises `ZeroDivisionError` when `b = 0`. -/
def pyDiv (a b : ℝ) : Except String ℝ :=
  if b = 0 then .error zero_division_error else .ok (a / b)

/-- Python `math.log x`: raises a domain error when `x ≤ 0`. -/
def pyLog (x : ℝ) : Except String ℝ :=
  if x ≤ 0 then .error math_domain_error else .ok (Real.log x)

/-- Python `math.log10 x`: raises a domain error when `x ≤ 0`. -/
def pyLog10 (x : ℝ) : Except String ℝ :=
  if x ≤ 0 then .error math_domain_error else .ok (Real.log x / Real.log 10)

/-- Python `math.sqrt x`: raises a domain error when `x < 0`. -/
def pySqrt (x : ℝ) : Except String ℝ :=
  if x < 0 then .error math_domain_error else .ok (Real.sqrt x)

/-- Python `x ** y` on floats: a negative base with a real exponent yields a
complex number in Python 3, so no real value is returned. -/
def pyPow (x y : ℝ) : Except String ℝ :=
  if x < 0 then .error complex_power_result else .ok (x ^ y)

/-- Python `round(x, n)`, modulo tie-breaking (see the header). -/
def pyRound (n : ℕ) (x : ℝ) : ℝ :=
  (round (x * 10 ^ n) : ℤ) / 10 ^ n

/-- Python `max` on a list: raises `ValueError` on an empty list. -/
def pyMaxList (l : List ℝ) : Except String ℝ :=
  match l with
  | [] => .error max_empty_error
  | x :: xs => .ok (xs.foldl max x)

/-- Python list indexing `l[i]` for a non-negative index. -/
def pyIndex (l : List ℝ) (i : ℕ) : Except String ℝ :=
  match l.get? i with
  | none => .error index_error
  | some x => .ok x

/-- Effectful map over a list in the `Except` monad (a Python `for` loop that
appends one computed value per element). -/
def exceptMapM {α β : Type} (f : α → Except String β) : List α → Except String (List β)
  | [] => .ok []
  | a :: as => do
    let b ← f a
    let bs ← exceptMapM f as
    .ok (b :: bs)

namespace GFunctionCalculator

/-- `GFunctionCalculator._infinite_line_source` from
`src/calculations/g_functions.py` (lines 70–91). -/
def infinite_line_source (time depth thermal_diffusivity : ℝ) : Except String ℝ :=
  if time ≤ 0 then .ok 0
  else do
    let ts ← pyDiv (depth ^ 2) (9 * thermal_diffusivity)
    if time < ts then
      .ok 0
    else do
      let q ← pyDiv time ts
      let ln_t_ts ← pyLog q
      .ok (0.5 * ln_t_ts)

/-- `GFunctionCalculator._infinite_cylindrical_source` from
`src/calculations/g_functions.py` (lines 93–114). -/
def infinite_cylindrical_source (time radius thermal_diffusivity : ℝ) : Except String ℝ :=
  if time ≤ 0 ∨ radius ≤ 0 then .ok 0
  else
    pyDiv (radius ^ 2) (4 * thermal_diffusivity * time) >>= fun u =>
    (if u < 0.01 then
        pyLog u >>= fun lu => .ok (-0.5 * (lu + 0.5772156649))
      else
        pyLog (4 * u) >>= fun l4u => .ok (-0.5 * l4u)) >>= fun g =>
    .ok (max 0 g)

/-- `GFunctionCalculator.calculate_finite_line_source` from
`src/calculations/g_functions.py` (lines 24–68).  The unused Python local
`H_rb = borehole_depth / borehole_radius` is kept because its division can
raise. -/
def calculate_finite_line_source
    (time borehole_depth borehole_radius thermal_diffusivity : ℝ) : Except String ℝ :=
  if time ≤ 0 ∨ borehole_depth ≤ 0 then .ok 0
  else do
    let Fo ← pyDiv (thermal_diffusivity * time) (borehole_depth ^ 2)
    let _H_rb ← pyDiv borehole_depth borehole_radius
    if Fo < 0.01 then
      infinite_cylindrical_source time borehole_radius thermal_diffusivity
    else if 10 < Fo then
      infinite_line_source time borehole_depth thermal_diffusivity
    else do
      let g_cyl ← infinite_cylindrical_source time borehole_radius thermal_diffusivity
      let g_ils ← infinite_line_source time borehole_depth thermal_diffusivity
      let w0 ← pyLog10 Fo
      let weight := max 0 (min 1 ((w0 + 2) / 3))
      .ok ((1 - weight) * g_cyl + weight * g_ils)

/-- `np.logspace(a, b, 50)`: the list of `10 ^ (a + i*(b-a)/49)` for
`i = 0, …, 49`. -/
def logspace50 (lg_start lg_end : ℝ) : List ℝ :=
  (List.range 50).map (fun i : ℕ => (10 : ℝ) ^ (lg_start + (i : ℝ) * (lg_end - lg_start) / 49))

/-- One point of the loop body of `generate_g_function_table`: the pair
`(ln(t/t_s), g(t))` appended for a sample time `t`. -/
def g_table_point (borehole_depth borehole_radius thermal_diffusivity ts t : ℝ) :
    Except String (ℝ × ℝ) := do
  let g ← calculate_finite_line_source t borehole_depth borehole_radius thermal_diffusivity
  let q ← pyDiv t ts
  let ln_t_ts ← pyLog q
  .ok (ln_t_ts, g)

/-- `GFunctionCalculator.generate_g_function_table` from
`src/calculations/g_functions.py` (lines 116–163); the two stored result
lists are returned. -/
def generate_g_function_table (borehole_depth borehole_radius thermal_diffusivity : ℝ)
    (simulation_years : ℕ) : Except String (List ℝ × List ℝ) := do
  let ts ← pyDiv (borehole_depth ^ 2) (9 * thermal_diffusivity)
  let t_start : ℝ := 3600
  let t_end : ℝ := (simulation_years : ℝ) * 365.25 * 24 * 3600
  let lg_start ← pyLog10 t_start
  let lg_end ← pyLog10 t_end
  let pairs ← exceptMapM
    (g_table_point borehole_depth borehole_radius thermal_diffusivity ts)
    (logspace50 lg_start lg_end)
  .ok (pairs.map Prod.fst, pairs.map Prod.snd)

/-- One linear segment step of `scipy.interpolate.interp1d` with
`fill_value="extrapolate"`: find the first knot at or beyond the query (or
the last segment) and interpolate linearly on it. -/
def interp_segments (x0 y0 : ℝ) : List (ℝ × ℝ) → ℝ → ℝ
  | [], _ => y0
  | (x1, y1) :: rest, q =>
    if q ≤ x1 ∨ rest = [] then y0 + (q - x0) * (y1 - y0) / (x1 - x0)
    else interp_segments x1 y1 rest q

/-- Modelled from the behaviour of `scipy.interpolate.interp1d` with
`kind="linear"` and `fill_value="extrapolate"` on strictly increasing knots
(scipy is an external library; only this call shape is used by the code). -/
def interp1d_linear (xs ys : List ℝ) (q : ℝ) : ℝ :=
  match xs, ys with
  | x0 :: xr, y0 :: yr => interp_segments x0 y0 (List.zip xr yr) q
  | _, _ => 0

/-- `GFunctionCalculator.interpolate_g` from `src/calculations/g_functions.py`
(lines 165–183); the two stored table lists are passed explicitly. -/
def interpolate_g (ln_t_ts_values g_values : List ℝ)
    (time borehole_depth thermal_diffusivity : ℝ) : Except String ℝ :=
  if g_values = [] then .ok 0
  else do
    let ts ← pyDiv (borehole_depth ^ 2) (9 * thermal_diffusivity)
    let q ← pyDiv time ts
    let ln_t_ts ← pyLog q
    .ok (interp1d_linear ln_t_ts_values g_values ln_t_ts)

/-- `GFunctionCalculator.calculate_temperature_penalty` from
`src/calculations/g_functions.py` (lines 185–211); total because of its
guard. -/
def calculate_temperature_penalty
    (heat_load thermal_conductivity borehole_depth g_value : ℝ) : ℝ :=
  if borehole_depth ≤ 0 ∨ thermal_conductivity ≤ 0 then 0
  else heat_load / borehole_depth * g_value / (2 * Real.pi * thermal_conductivity)

end GFunctionCalculator

namespace ThermalResistanceCalculator

/-- `ThermalResistanceCalculator.calculate_pipe_resistance` from
`src/calculations/thermal.py` (lines 14–37); total because of its guard. -/
def calculate_pipe_resistance
    (inner_diameter outer_diameter thermal_conductivity : ℝ) : ℝ :=
  if thermal_conductivity ≤ 0 ∨ inner_diameter ≤ 0 ∨ outer_diameter ≤ inner_diameter then 0
  else 1 / (2 * Real.pi * thermal_conductivity) * Real.log (outer_diameter / inner_diameter)

/-- `ThermalResistanceCalculator.calculate_convection_resistance` from
`src/calculations/thermal.py` (lines 39–87). -/
def calculate_convection_resistance
    (inner_diameter flow_rate fluid_thermal_conductivity fluid_viscosity
     fluid_density fluid_heat_capacity : ℝ) : Except String ℝ :=
  if inner_diameter ≤ 0 ∨ flow_rate ≤ 0 then .ok 0
  else
    let area := Real.pi * (inner_diameter / 2) ^ 2
    pyDiv flow_rate area >>= fun velocity =>
    pyDiv (fluid_density * velocity * inner_diameter) fluid_viscosity >>= fun reynolds =>
    pyDiv (fluid_viscosity * fluid_heat_capacity) fluid_thermal_conductivity >>= fun prandtl =>
    (if 2300 < reynolds then
        pyPow reynolds 0.8 >>= fun rey08 =>
        pyPow prandtl 0.4 >>= fun pr04 =>
        .ok (0.023 * rey08 * pr04)
      else .ok 3.66) >>= fun nusselt =>
    let h := nusselt * fluid_thermal_conductivity / inner_diameter
    pyDiv 1 (h * Real.pi * inner_diameter)

/-- `ThermalResistanceCalculator.calculate_single_u_tube_resistance` from
`src/calculations/thermal.py` (lines 89–147). -/
def calculate_single_u_tube_resistance
    (borehole_radius pipe_outer_radius shank_spacing
     pipe_thermal_conductivity grout_thermal_conductivity : ℝ) : Except String (ℝ × ℝ) := do
  let x1 := shank_spacing / 2
  let y1 : ℝ := 0
  let x2 := -shank_spacing / 2
  let y2 : ℝ := 0
  let beta ← pyDiv (grout_thermal_conductivity - pipe_thermal_conductivity)
      (grout_thermal_conductivity + pipe_thermal_conductivity)
  let d_12 ← pySqrt ((x1 - x2) ^ 2 + (y1 - y2) ^ 2)
  let q1 ← pyDiv d_12 (2 * pipe_outer_radius)
  let r_12_term1 ← pyLog q1
  let q2 ← pyDiv (borehole_radius ^ 2 - (x1 * x2 + y1 * y2)) (borehole_radius * d_12)
  let l2 ← pyLog q2
  let r_12_term2 := beta * l2
  let r_12 ← pyDiv (r_12_term1 + r_12_term2) (2 * Real.pi * grout_thermal_conductivity)
  let s1 ← pyDiv borehole_radius pipe_outer_radius
  let s2 ← pyDiv shank_spacing (2 * borehole_radius)
  let s3 ← pySqrt s2
  let sigma := s1 * s3
  (if 1 < sigma then do
      let c ← pyDiv 1 (2 * Real.pi * grout_thermal_conductivity)
      let q3 ← pyDiv borehole_radius pipe_outer_radius
      let l3 ← pyLog q3
      let q4 ← pyDiv borehole_radius shank_spacing
      let l4 ← pyLog q4
      .ok (c * (l3 + beta * l4))
    else do
      let c ← pyDiv 1 (2 * Real.pi * grout_thermal_conductivity)
      let q3 ← pyDiv borehole_radius pipe_outer_radius
      let l3 ← pyLog q3
      .ok (c * l3)) >>= fun r_b =>
  let r_a := 2 * r_12
  .ok (r_b, r_a)

/-- `ThermalResistanceCalculator.calculate_double_u_tube_resistance` from
`src/calculations/thermal.py` (lines 149–181). -/
def calculate_double_u_tube_resistance
    (borehole_radius pipe_outer_radius shank_spacing
     pipe_thermal_conductivity grout_thermal_conductivity : ℝ) : Except String (ℝ × ℝ) := do
  let r_pipes := shank_spacing / Real.sqrt 2
  let equiv_radius := 2 * pipe_outer_radius
  let rba ← calculate_single_u_tube_resistance borehole_radius equiv_radius (2 * r_pipes)
      pipe_thermal_conductivity grout_thermal_conductivity
  .ok (rba.1 * 0.7, rba.2 * 0.5)

end ThermalResistanceCalculator

namespace VDI4640Calculator

/-- The dictionary returned by `VDI4640Calculator._calculate_thermal_resistances`. -/
structure ThermalResistances where
  r_grundlast : ℝ
  r_per : ℝ
  r_peak : ℝ
  g_grundlast : ℝ
  g_per : ℝ
  g_peak : ℝ

/-- The dictionary returned by `VDI4640Calculator._calculate_loads`. -/
structure Loads where
  q_nettogrundlast : ℝ
  q_per : ℝ
  q_peak : ℝ

/-- The dataclass `VDI4640Result` from `src/calculations/vdi4640.py` (lines 15–57). -/
structure VDI4640Result where
  required_depth_heating : ℝ
  required_depth_cooling : ℝ
  required_depth_final : ℝ
  design_case : String
  t_wp_aus_heating_min : ℝ
  t_wp_aus_cooling_max : ℝ
  delta_t_grundlast_heating : ℝ
  delta_t_per_heating : ℝ
  delta_t_peak_heating : ℝ
  delta_t_fluid_heating : ℝ
  delta_t_grundlast_cooling : ℝ
  delta_t_per_cooling : ℝ
  delta_t_peak_cooling : ℝ
  delta_t_fluid_cooling : ℝ
  r_grundlast : ℝ
  r_per : ℝ
  r_peak : ℝ
  r_borehole : ℝ
  q_nettogrundlast_heating : ℝ
  q_per_heating : ℝ
  q_peak_heating : ℝ
  q_nettogrundlast_cooling : ℝ
  q_per_cooling : ℝ
  q_peak_cooling : ℝ
  g_grundlast : ℝ
  g_per : ℝ
  g_peak : ℝ

/-- The default `monthly_heating_factors` of
`VDI4640Calculator.calculate_complete` (also of
`BoreholeCalculator.calculate_required_depth`). -/
def default_monthly_heating_factors : List ℝ :=
  [0.155, 0.148, 0.125, 0.099, 0.064, 0.0, 0.0, 0.0, 0.061, 0.087, 0.117, 0.144]

/-- The default `monthly_cooling_factors` of `VDI4640Calculator.calculate_complete`. -/
def default_monthly_cooling_factors : List ℝ :=
  [0.0, 0.0, 0.0, 0.05, 0.15, 0.25, 0.30, 0.25, 0.0, 0.0, 0.0, 0.0]

/-- `VDI4640Calculator._calculate_thermal_resistances` from
`src/calculations/vdi4640.py` (lines 359–399). -/
def calculate_thermal_resistances
    (lambda_ground alpha_ground h_sonde r_borehole : ℝ) : Except String ThermalResistances := do
  let t_grundlast : ℝ := 10 * 365.25 * 24 * 3600
  let t_per : ℝ := 30 * 24 * 3600
  let t_peak : ℝ := 6 * 3600
  let g_grundlast ← GFunctionCalculator.calculate_finite_line_source t_grundlast h_sonde
      r_borehole alpha_ground
  let g_per ← GFunctionCalculator.calculate_finite_line_source t_per h_sonde
      r_borehole alpha_ground
  let g_peak ← GFunctionCalculator.calculate_finite_line_source t_peak h_sonde
      r_borehole alpha_ground
  let r_grundlast ← pyDiv g_grundlast (2 * Real.pi * lambda_ground)
  let r_per ← pyDiv g_per (2 * Real.pi * lambda_ground)
  let r_peak ← pyDiv g_peak (2 * Real.pi * lambda_ground)
  .ok { r_grundlast := r_grundlast, r_per := r_per, r_peak := r_peak,
        g_grundlast := g_grundlast, g_per := g_per, g_peak := g_peak }

/-- `VDI4640Calculator._calculate_loads` from `src/calculations/vdi4640.py`
(lines 401–435). -/
def calculate_loads (annual_demand peak_load : ℝ) (monthly_factors : List ℝ) (cop : ℝ)
    (heating : Bool) : Except String Loads :=
  (if heating then pyDiv (cop - 1) cop else pyDiv (cop + 1) cop) >>= fun efficiency_factor =>
  let annual_extraction_kwh := annual_demand * efficiency_factor
  let q_nettogrundlast := annual_extraction_kwh * 1000 / 8760
  let max_monthly_factor : ℝ := match monthly_factors with
    | [] => 0.155
    | f :: fs => fs.foldl max f
  let monthly_energy_kwh := annual_demand * max_monthly_factor
  let monthly_extraction_kwh := monthly_energy_kwh * efficiency_factor
  let q_per := monthly_extraction_kwh * 1000 / 730
  let q_peak := peak_load * 1000 * efficiency_factor
  .ok { q_nettogrundlast := q_nettogrundlast, q_per := q_per, q_peak := q_peak }

/-- `VDI4640Calculator._calculate_borehole_length` from
`src/calculations/vdi4640.py` (lines 259–304). -/
def calculate_borehole_length
    (q_grundlast q_per q_peak r_grundlast r_per r_peak r_borehole
     t_ground t_fluid_limit : ℝ) (n_boreholes : ℤ) (heating : Bool) : Except String ℝ :=
  let delta_t_reaction := if heating then t_ground - t_fluid_limit else t_fluid_limit - t_ground
  if delta_t_reaction ≤ 0 then
    .error invalid_delta_t_error
  else
    let numerator := |q_grundlast| * (r_grundlast + r_borehole) +
      |q_per| * (r_per + r_borehole) + |q_peak| * (r_peak + r_borehole)
    let denominator := delta_t_reaction * (n_boreholes : ℝ)
    pyDiv numerator denominator

/-- `VDI4640Calculator._calculate_wp_exit_temperature` from
`src/calculations/vdi4640.py` (lines 306–357).  The Python pair
`(t_wp_aus, (Δ_grundlast, Δ_per, Δ_peak))` is returned as a flattened
4-tuple.  The unused parameter `lambda_ground` of the source is kept. -/
def calculate_wp_exit_temperature
    (h_sonde : ℝ) (n_boreholes : ℤ) (q_grundlast q_per q_peak r_grundlast r_per r_peak
     r_borehole lambda_ground t_undisturbed delta_t_fluid : ℝ) (heating : Bool) :
    Except String (ℝ × ℝ × ℝ × ℝ) :=
  (if 0 < h_sonde then pyDiv |q_grundlast| (h_sonde * (n_boreholes : ℝ)) else .ok 0) >>=
    fun q_grundlast_per_m =>
  (if 0 < h_sonde then pyDiv |q_per| (h_sonde * (n_boreholes : ℝ)) else .ok 0) >>=
    fun q_per_per_m =>
  (if 0 < h_sonde then pyDiv |q_peak| (h_sonde * (n_boreholes : ℝ)) else .ok 0) >>=
    fun q_peak_per_m =>
  let delta_t_grundlast := q_grundlast_per_m * (r_grundlast + r_borehole)
  let delta_t_per := q_per_per_m * (r_per + r_borehole)
  let delta_t_peak := q_peak_per_m * (r_peak + r_borehole)
  let sign : ℝ := if heating then -1 else 1
  let t_wp_aus := t_undisturbed + sign * delta_t_grundlast + sign * delta_t_per +
    sign * delta_t_peak - 0.5 * delta_t_fluid
  .ok (t_wp_aus, delta_t_grundlast, delta_t_per, delta_t_peak)

/-- The string stored in `design_case` when heating dominates. -/
def heating_case : String := "heating"

/-- The string stored in `design_case` when cooling dominates. -/
def cooling_case : String := "cooling"

/-- `VDI4640Calculator.calculate_complete` from `src/calculations/vdi4640.py`
(lines 71–257).  Optional monthly factor lists are `Option`s resolved to the
source defaults, like the Python `None` handling. -/
def calculate_complete
    (ground_thermal_conductivity ground_thermal_diffusivity t_undisturbed
     borehole_diameter borehole_depth_initial : ℝ) (n_boreholes : ℤ) (r_borehole : ℝ)
    (annual_heating_demand peak_heating_load : ℝ) (monthly_heating_factors : Option (List ℝ))
    (annual_cooling_demand peak_cooling_load : ℝ) (monthly_cooling_factors : Option (List ℝ))
    (heat_pump_cop_heating heat_pump_cop_cooling t_fluid_min_required t_fluid_max_required
     delta_t_fluid : ℝ) : Except String VDI4640Result := do
  let monthly_heating_factors := monthly_heating_factors.getD default_monthly_heating_factors
  let monthly_cooling_factors := monthly_cooling_factors.getD default_monthly_cooling_factors
  let resistances ← calculate_thermal_resistances ground_thermal_conductivity
      ground_thermal_diffusivity borehole_depth_initial (borehole_diameter / 2000)
  let loads_heating ← calculate_loads annual_heating_demand peak_heating_load
      monthly_heating_factors heat_pump_cop_heating true
  let loads_cooling ← calculate_loads annual_cooling_demand peak_cooling_load
      monthly_cooling_factors heat_pump_cop_cooling false
  let h_heating ← calculate_borehole_length loads_heating.q_nettogrundlast loads_heating.q_per
      loads_heating.q_peak resistances.r_grundlast resistances.r_per resistances.r_peak
      r_borehole t_undisturbed t_fluid_min_required n_boreholes true
  let h_cooling ← calculate_borehole_length loads_cooling.q_nettogrundlast loads_cooling.q_per
      loads_cooling.q_peak resistances.r_grundlast resistances.r_per resistances.r_peak
      r_borehole t_undisturbed t_fluid_max_required n_boreholes false
  let h_final := if h_heating > h_cooling then h_heating else h_cooling
  let design_case := if h_heating > h_cooling then heating_case else cooling_case
  let wph ← calculate_wp_exit_temperature h_final n_boreholes loads_heating.q_nettogrundlast
      loads_heating.q_per loads_heating.q_peak resistances.r_grundlast resistances.r_per
      resistances.r_peak r_borehole ground_thermal_conductivity t_undisturbed delta_t_fluid true
  let wpc ← calculate_wp_exit_temperature h_final n_boreholes loads_cooling.q_nettogrundlast
      loads_cooling.q_per loads_cooling.q_peak resistances.r_grundlast resistances.r_per
      resistances.r_peak r_borehole ground_thermal_conductivity t_undisturbed delta_t_fluid false
  .ok {
    required_depth_heating := h_heating,
    required_depth_cooling := h_cooling,
    required_depth_final := h_final,
    design_case := design_case,
    t_wp_aus_heating_min := wph.1,
    t_wp_aus_cooling_max := wpc.1,
    delta_t_grundlast_heating := wph.2.1,
    delta_t_per_heating := wph.2.2.1,
    delta_t_peak_heating := wph.2.2.2,
    delta_t_fluid_heating := delta_t_fluid,
    delta_t_grundlast_cooling := wpc.2.1,
    delta_t_per_cooling := wpc.2.2.1,
    delta_t_peak_cooling := wpc.2.2.2,
    delta_t_fluid_cooling := delta_t_fluid,
    r_grundlast := resistances.r_grundlast,
    r_per := resistances.r_per,
    r_peak := resistances.r_peak,
    r_borehole := r_borehole,
    q_nettogrundlast_heating := loads_heating.q_nettogrundlast,
    q_per_heating := loads_heating.q_per,
    q_peak_heating := loads_heating.q_peak,
    q_nettogrundlast_cooling := loads_cooling.q_nettogrundlast,
    q_per_cooling := loads_cooling.q_per,
    q_peak_cooling := loads_cooling.q_peak,
    g_grundlast := resistances.g_grundlast,
    g_per := resistances.g_per,
    g_peak := resistances.g_peak }

/-- The design-case/selection contract of `calculate_complete` (claim C1):
on every successful call the final depth is the maximum of the two
per-mode depths and `design_case` records the selected mode. -/
def design_case_spec (e : Except String VDI4640Result) : Prop :=
  ∀ r, e = .ok r →
    r.required_depth_final = max r.required_depth_heating r.required_depth_cooling ∧
    (r.design_case = heating_case ∨ r.design_case = cooling_case) ∧
    (r.design_case = heating_case ↔ r.required_depth_cooling < r.required_depth_heating) ∧
    (r.design_case = heating_case → r.required_depth_final = r.required_depth_heating) ∧
    (r.design_case = cooling_case → r.required_depth_final = r.required_depth_cooling)

end VDI4640Calculator

namespace BoreholeCalculator

/-- The dataclass `BoreholeResult` from `src/calculations/borehole.py`
(lines 10–23); it has no status field of any kind. -/
structure BoreholeResult where
  required_depth : ℝ
  fluid_temperature_min : ℝ
  fluid_temperature_max : ℝ
  borehole_resistance : ℝ
  effective_resistance : ℝ
  heat_extraction_rate : ℝ
  monthly_temperatures : List ℝ

/-- The parameters of `BoreholeCalculator.calculate_required_depth`
(`src/calculations/borehole.py`, lines 39–83), field names as in the source. -/
structure BoreholeParams where
  ground_thermal_conductivity : ℝ
  ground_heat_capacity : ℝ
  undisturbed_ground_temp : ℝ
  geothermal_gradient : ℝ
  borehole_diameter : ℝ
  pipe_configuration : String
  pipe_outer_diameter : ℝ
  pipe_wall_thickness : ℝ
  pipe_thermal_conductivity : ℝ
  shank_spacing : ℝ
  grout_thermal_conductivity : ℝ
  fluid_thermal_conductivity : ℝ
  fluid_heat_capacity : ℝ
  fluid_density : ℝ
  fluid_viscosity : ℝ
  fluid_flow_rate : ℝ
  annual_heating_demand : ℝ
  annual_cooling_demand : ℝ
  peak_heating_load : ℝ
  peak_cooling_load : ℝ
  monthly_heating_factors : Option (List ℝ)
  monthly_cooling_factors : Option (List ℝ)
  heat_pump_cop : ℝ
  min_fluid_temperature : ℝ
  max_fluid_temperature : ℝ
  simulation_years : ℕ
  initial_depth : ℝ

/-- The per-iteration values of `calculate_required_depth` that survive the
loop (Python locals referenced after the `for`). -/
structure IterOut where
  fluid_temp_min : ℝ
  fluid_temp_max : ℝ
  r_b : ℝ
  r_eff : ℝ
  q_per_meter : ℝ
  thermal_diffusivity : ℝ
  avg_ground_temp : ℝ
  ln_t_ts_values : List ℝ
  g_values : List ℝ

/-- Needle of the Python test `"single" in config_lower`. -/
def single_marker : String := "single"

/-- Needle of the Python test `"single-u" in config_lower`. -/
def single_u_marker : String := "single-u"

/-- Needle of the Python test `"double" in config_lower`. -/
def double_marker : String := "double"

/-- Needle of the Python test `"double-u" in config_lower`. -/
def double_u_marker : String := "double-u"

/-- Character-list version of string start comparison. -/
def chars_start_with : List Char → List Char → Bool
  | _, [] => true
  | [], _ :: _ => false
  | c :: cs, d :: ds => c = d && chars_start_with cs ds

/-- Character-list version of the Python substring test `sub in s`. -/
def chars_contain : List Char → List Char → Bool
  | [], pat => pat.isEmpty
  | c :: rest, pat => chars_start_with (c :: rest) pat || chars_contain rest pat

/-- Python substring test `sub in s`. -/
def py_in (sub s : String) : Bool := chars_contain s.toList sub.toList

/-- Python `str.lower()` (ASCII case folding, character by character). -/
def py_lower (s : String) : String := String.mk (s.data.map Char.toLower)

/-- `BoreholeCalculator._calculate_borehole_resistance` from
`src/calculations/borehole.py` (lines 250–278); the unused `pipe_thickness`
parameter of the source is kept. -/
def calculate_borehole_resistance
    (configuration : String) (borehole_radius pipe_radius pipe_thickness shank_spacing
     pipe_thermal_cond grout_thermal_cond : ℝ) : Except String (ℝ × ℝ) :=
  let config_lower := py_lower configuration
  if py_in single_marker config_lower || py_in single_u_marker config_lower then
    ThermalResistanceCalculator.calculate_single_u_tube_resistance borehole_radius pipe_radius
      shank_spacing pipe_thermal_cond grout_thermal_cond
  else if py_in double_marker config_lower || py_in double_u_marker config_lower then
    ThermalResistanceCalculator.calculate_double_u_tube_resistance borehole_radius pipe_radius
      shank_spacing pipe_thermal_cond grout_thermal_cond
  else
    ThermalResistanceCalculator.calculate_single_u_tube_resistance borehole_radius pipe_radius
      shank_spacing pipe_thermal_cond grout_thermal_cond

/-- The body of the `for iteration in range(max_iterations)` loop of
`calculate_required_depth` (`src/calculations/borehole.py`, lines 123–227).
Returns (converged?, next depth, Python locals kept after the loop); the
next depth equals the incoming depth when converged, else the adjusted and
clamped depth. -/
def iteration_body (p : BoreholeParams)
    (net_annual_load peak_ground_extraction peak_ground_injection : ℝ)
    (monthly_heating_factors : List ℝ) (depth : ℝ) : Except String (Bool × ℝ × IterOut) := do
  let rba ← calculate_borehole_resistance p.pipe_configuration (p.borehole_diameter / 2)
      (p.pipe_outer_diameter / 2) p.pipe_wall_thickness p.shank_spacing
      p.pipe_thermal_conductivity p.grout_thermal_conductivity
  let r_b := rba.1
  let r_pipe := ThermalResistanceCalculator.calculate_pipe_resistance
      (p.pipe_outer_diameter - 2 * p.pipe_wall_thickness) p.pipe_outer_diameter
      p.pipe_thermal_conductivity
  let r_conv ← ThermalResistanceCalculator.calculate_convection_resistance
      (p.pipe_outer_diameter - 2 * p.pipe_wall_thickness) p.fluid_flow_rate
      p.fluid_thermal_conductivity p.fluid_viscosity p.fluid_density p.fluid_heat_capacity
  let r_eff := r_b + r_pipe + r_conv
  let thermal_diffusivity ← pyDiv p.ground_thermal_conductivity p.ground_heat_capacity
  let table ← GFunctionCalculator.generate_g_function_table depth (p.borehole_diameter / 2)
      thermal_diffusivity p.simulation_years
  let _max_heating_month ← pyMaxList monthly_heating_factors
  let critical_time : ℝ := (p.simulation_years : ℝ) * 365.25 * 24 * 3600
  let g_value ← GFunctionCalculator.interpolate_g table.1 table.2 critical_time depth
      thermal_diffusivity
  let q_per_meter ← pyDiv net_annual_load depth
  let delta_T_long := GFunctionCalculator.calculate_temperature_penalty net_annual_load
      p.ground_thermal_conductivity depth g_value
  let peak_time : ℝ := 6 * 3600
  let g_peak ← GFunctionCalculator.calculate_finite_line_source peak_time depth
      (p.borehole_diameter / 2) thermal_diffusivity
  let avg_ground_temp := p.undisturbed_ground_temp + p.geothermal_gradient * depth / 2
  let q_peak_per_meter ← pyDiv peak_ground_extraction depth
  let peak_factor ← pyDiv q_peak_per_meter (2 * Real.pi * p.ground_thermal_conductivity)
  let delta_T_peak := peak_factor * g_peak
  let delta_T_resistance := q_peak_per_meter * r_eff
  let fluid_temp_min := avg_ground_temp + delta_T_long - delta_T_peak - delta_T_resistance
  (if 0 < peak_ground_injection then do
      let q_cool_per_meter ← pyDiv peak_ground_injection depth
      let cool_factor ← pyDiv q_cool_per_meter (2 * Real.pi * p.ground_thermal_conductivity)
      .ok (avg_ground_temp + delta_T_long + cool_factor * g_peak + q_cool_per_meter * r_eff)
    else .ok (avg_ground_temp + delta_T_long)) >>= fun fluid_temp_max =>
  let out : IterOut := {
    fluid_temp_min := fluid_temp_min,
    fluid_temp_max := fluid_temp_max,
    r_b := r_b,
    r_eff := r_eff,
    q_per_meter := q_per_meter,
    thermal_diffusivity := thermal_diffusivity,
    avg_ground_temp := avg_ground_temp,
    ln_t_ts_values := table.1,
    g_values := table.2 }
  if fluid_temp_min ≥ p.min_fluid_temperature ∧ fluid_temp_max ≤ p.max_fluid_temperature then
    .ok (true, depth, out)
  else
    let adjusted := if fluid_temp_min < p.min_fluid_temperature then
        depth + (p.min_fluid_temperature - fluid_temp_min) / 0.02
      else if fluid_temp_max > p.max_fluid_temperature then
        depth + (fluid_temp_max - p.max_fluid_temperature) / 0.02
      else depth
    .ok (false, max 20 (min 300 adjusted), out)

/-- The `for iteration in range(max_iterations)` loop of
`calculate_required_depth`, with `fuel` remaining iterations and `done`
executed iterations.  Besides the loop state it returns the total number of
executed iterations and whether the max-iterations warning was printed. -/
def sizing_loop (p : BoreholeParams)
    (net_annual_load peak_ground_extraction peak_ground_injection : ℝ)
    (monthly_heating_factors : List ℝ) :
    ℕ → ℕ → ℝ → Except String (IterOut × ℝ × ℕ × Bool)
  | 0, _done, _depth => .error no_iteration_error
  | fuel + 1, done, depth =>
    iteration_body p net_annual_load peak_ground_extraction peak_ground_injection
        monthly_heating_factors depth >>= fun step =>
    if step.1 then .ok (step.2.2, depth, done + 1, false)
    else if fuel = 0 then .ok (step.2.2, step.2.1, done + 1, true)
    else sizing_loop p net_annual_load peak_ground_extraction peak_ground_injection
        monthly_heating_factors fuel (done + 1) step.2.1

/-- `BoreholeCalculator._calculate_monthly_temperatures` from
`src/calculations/borehole.py` (lines 280–316); the g-function table of the
final loop iteration is passed explicitly.  The unused `borehole_radius`
parameter of the source is kept. -/
def calculate_monthly_temperatures (depth avg_ground_temp annual_load : ℝ)
    (heating_factors cooling_factors : List ℝ)
    (thermal_conductivity thermal_diffusivity borehole_radius : ℝ)
    (ln_t_ts_values g_values : List ℝ) : Except String (List ℝ) :=
  exceptMapM (fun month => do
    let hf ← pyIndex heating_factors month
    let cf ← pyIndex cooling_factors month
    let monthly_load := annual_load * (hf - cf)
    let time := ((month : ℝ) + 0.5) * (30.44 * 24 * 3600)
    let g ← GFunctionCalculator.interpolate_g ln_t_ts_values g_values time depth
        thermal_diffusivity
    let delta_T := GFunctionCalculator.calculate_temperature_penalty monthly_load
        thermal_conductivity depth g
    .ok (pyRound 2 (avg_ground_temp + delta_T))) (List.range 12)

/-- `BoreholeCalculator.calculate_required_depth` from
`src/calculations/borehole.py` (lines 39–248). -/
def calculate_required_depth (p : BoreholeParams) : Except String BoreholeResult := do
  let monthly_heating_factors :=
    p.monthly_heating_factors.getD VDI4640Calculator.default_monthly_heating_factors
  let monthly_cooling_factors := p.monthly_cooling_factors.getD (List.replicate 12 (0 : ℝ))
  let avg_heating_power := p.annual_heating_demand * 1000000 * 3600 / (365.25 * 24 * 3600)
  let avg_cooling_power := p.annual_cooling_demand * 1000000 * 3600 / (365.25 * 24 * 3600)
  let heat_pump_efficiency_factor ← pyDiv (p.heat_pump_cop - 1) p.heat_pump_cop
  let avg_ground_heat_extraction := avg_heating_power * heat_pump_efficiency_factor
  let cop_reciprocal ← pyDiv 1 p.heat_pump_cop
  let avg_ground_heat_injection := avg_cooling_power * (1 + cop_reciprocal)
  let net_annual_load := avg_ground_heat_extraction - avg_ground_heat_injection
  let peak_ground_extraction := p.peak_heating_load * 1000 * heat_pump_efficiency_factor
  let cop_reciprocal2 ← pyDiv 1 p.heat_pump_cop
  let peak_ground_injection := p.peak_cooling_load * 1000 * (1 + cop_reciprocal2)
  let loop_result ← sizing_loop p net_annual_load peak_ground_extraction peak_ground_injection
      monthly_heating_factors 20 0 p.initial_depth
  let out := loop_result.1
  let depth := loop_result.2.1
  let monthly_temps ← calculate_monthly_temperatures depth out.avg_ground_temp net_annual_load
      monthly_heating_factors monthly_cooling_factors p.ground_thermal_conductivity
      out.thermal_diffusivity (p.borehole_diameter / 2) out.ln_t_ts_values out.g_values
  .ok {
    required_depth := pyRound 1 depth,
    fluid_temperature_min := pyRound 2 out.fluid_temp_min,
    fluid_temperature_max := pyRound 2 out.fluid_temp_max,
    borehole_resistance := pyRound 4 out.r_b,
    effective_resistance := pyRound 4 out.r_eff,
    heat_extraction_rate := pyRound 2 out.q_per_meter,
    monthly_temperatures := monthly_temps }

end BoreholeCalculator

/-- A concrete zero-load parameter set (source defaults with both annual
demands and both peak loads equal to `0`, a low laminar flow rate and the
default initial depth `100 m`), used as a converging test vector for the
iterative sizer. -/
def zero_load_params : BoreholeCalculator.BoreholeParams := {
  ground_thermal_conductivity := 3.4,
  ground_heat_capacity := 2400000,
  undisturbed_ground_temp := 10,
  geothermal_gradient := 0.03,
  borehole_diameter := 0.152,
  pipe_configuration := BoreholeCalculator.single_u_marker,
  pipe_outer_diameter := 0.040,
  pipe_wall_thickness := 0.0037,
  pipe_thermal_conductivity := 0.42,
  shank_spacing := 0.052,
  grout_thermal_conductivity := 1.3,
  fluid_thermal_conductivity := 0.48,
  fluid_heat_capacity := 3800,
  fluid_density := 1030,
  fluid_viscosity := 0.004,
  fluid_flow_rate := 1/100000,
  annual_heating_demand := 0,
  annual_cooling_demand := 0,
  peak_heating_load := 0,
  peak_cooling_load := 0,
  monthly_heating_factors := none,
  monthly_cooling_factors := none,
  heat_pump_cop := 4,
  min_fluid_temperature := -2,
  max_fluid_temperature := 15,
  simulation_years := 25,
  initial_depth := 100 }

/-- The same parameter set with a zero heat-pump COP: the efficiency-factor
division `(COP - 1) / COP` then raises before the iteration loop starts. -/
def zero_cop_params : BoreholeCalculator.BoreholeParams :=
  { zero_load_params with heat_pump_cop := 0 }

@[simp] theorem ok_bind {ε α β : Type} (a : α) (k : α → Except ε β) :
    (Except.ok a >>= k) = k a := rfl

@[simp] theorem error_bind {ε α β : Type} (e : ε) (k : α → Except ε β) :
    ((Except.error e : Except ε α) >>= k) = .error e := rfl

@[simp] theorem pure_eq_ok {ε α : Type} (a : α) : (pure a : Except ε α) = .ok a := rfl

theorem except_bind_ok {ε α β : Type} (e : Except ε α) (k : α → Except ε β) (v : β) :
    (e >>= k) = .ok v ↔ ∃ a, e = .ok a ∧ k a = .ok v := by
  cases e <;> simp

theorem pyDiv_eval {b : ℝ} (a : ℝ) (h : b ≠ 0) : pyDiv a b = .ok (a / b) := by
  simp [pyDiv, h]

theorem pyLog_eval {x : ℝ} (h : 0 < x) : pyLog x = .ok (Real.log x) := by
  simp [pyLog, not_le.mpr h]

theorem pyLog10_eval {x : ℝ} (h : 0 < x) : pyLog10 x = .ok (Real.log x / Real.log 10) := by
  simp [pyLog10, not_le.mpr h]

theorem pySqrt_eval {x : ℝ} (h : 0 ≤ x) : pySqrt x = .ok (Real.sqrt x) := by
  simp [pySqrt, not_lt.mpr h]

theorem pyDiv_ok_inv {a b c : ℝ} (h : pyDiv a b = .ok c) : b ≠ 0 ∧ c = a / b := by
  by_cases hb : b = 0
  · simp [pyDiv, hb] at h
  · simp [pyDiv, hb] at h
    exact ⟨hb, h.symm⟩

theorem pyLog_ok_inv {x y : ℝ} (h : pyLog x = .ok y) : 0 < x ∧ y = Real.log x := by
  by_cases hx : x ≤ 0
  · simp [pyLog, hx] at h
  · simp [pyLog, hx] at h
    exact ⟨not_le.mp hx, h.symm⟩

/-- Successful `exceptMapM` from pointwise success, preserving the length. -/
theorem exceptMapM_ok {α β : Type} (f : α → Except String β) (l : List α)
    (h : ∀ x ∈ l, ∃ y, f x = .ok y) :
    ∃ ys, exceptMapM f l = .ok ys ∧ ys.length = l.length := by
  induction l with
  | nil => exact ⟨[], rfl, rfl⟩
  | cons a as ih =>
    obtain ⟨y, hy⟩ := h a (List.mem_cons_self a as)
    obtain ⟨ys, hys, hlen⟩ := ih (fun x hx => h x (List.mem_cons_of_mem a hx))
    exact ⟨y :: ys, by rw [exceptMapM, hy, ok_bind, hys, ok_bind],
      by simp [hlen]⟩

namespace GFunctionCalculator

/-- Closed form of `_infinite_line_source` on positive inputs. -/
theorem ils_eval_pos {time depth alpha : ℝ} (ht : 0 < time) (hd : 0 < depth) (ha : 0 < alpha) :
    infinite_line_source time depth alpha =
      .ok (if time < depth ^ 2 / (9 * alpha) then 0
           else 0.5 * Real.log (time / (depth ^ 2 / (9 * alpha)))) := by
  have h9 : (9 : ℝ) * alpha ≠ 0 := by positivity
  have hts : 0 < depth ^ 2 / (9 * alpha) := by positivity
  rw [infinite_line_source, if_neg (not_le.mpr ht), pyDiv_eval _ h9, ok_bind]
  by_cases hlt : time < depth ^ 2 / (9 * alpha)
  · rw [if_pos hlt, if_pos hlt]
  · rw [if_neg hlt, if_neg hlt, pyDiv_eval _ (ne_of_gt hts), ok_bind,
      pyLog_eval (div_pos ht hts), ok_bind]

/-- Whatever `_infinite_line_source` returns is non-negative. -/
theorem ils_nonneg {time depth alpha g : ℝ}
    (h : infinite_line_source time depth alpha = .ok g) : 0 ≤ g := by
  rw [infinite_line_source] at h
  split at h
  · simp only [Except.ok.injEq] at h
    exact h ▸ le_rfl
  · rename_i htime
    rw [except_bind_ok] at h
    obtain ⟨ts, hts, h⟩ := h
    obtain ⟨-, rfl⟩ := pyDiv_ok_inv hts
    split at h
    · simp only [Except.ok.injEq] at h
      exact h ▸ le_rfl
    · rename_i hge
      rw [except_bind_ok] at h
      obtain ⟨q, hq, h⟩ := h
      obtain ⟨htsne, rfl⟩ := pyDiv_ok_inv hq
      rw [except_bind_ok] at h
      obtain ⟨l, hl, h⟩ := h
      obtain ⟨hqpos, rfl⟩ := pyLog_ok_inv hl
      simp only [Except.ok.injEq] at h
      subst h
      have htpos : 0 < time := not_le.mp htime
      rcases lt_trichotomy (depth ^ 2 / (9 * alpha)) 0 with hneg | hzero | hpos
      · exact absurd hqpos (not_lt.mpr (le_of_lt (div_neg_of_pos_of_neg htpos hneg)))
      · exact absurd hzero htsne
      · have hone : 1 ≤ time / (depth ^ 2 / (9 * alpha)) :=
          (one_le_div hpos).mpr (not_lt.mp hge)
        have := Real.log_nonneg hone
        linarith

/-- Closed form of `_infinite_cylindrical_source` on positive inputs. -/
theorem ics_eval_pos {time radius alpha : ℝ} (ht : 0 < time) (hr : 0 < radius) (ha : 0 < alpha) :
    infinite_cylindrical_source time radius alpha =
      .ok (max 0 (if radius ^ 2 / (4 * alpha * time) < 0.01 then
            -0.5 * (Real.log (radius ^ 2 / (4 * alpha * time)) + 0.5772156649)
          else -0.5 * Real.log (4 * (radius ^ 2 / (4 * alpha * time))))) := by
  have h4 : (4 : ℝ) * alpha * time ≠ 0 := by positivity
  have hu : 0 < radius ^ 2 / (4 * alpha * time) := by positivity
  rw [infinite_cylindrical_source,
    if_neg (by push_neg; exact ⟨ht, hr⟩),
    pyDiv_eval _ h4, ok_bind]
  by_cases hsmall : radius ^ 2 / (4 * alpha * time) < 0.01
  · rw [if_pos hsmall, if_pos hsmall, pyLog_eval hu, ok_bind, ok_bind]
  · rw [if_neg hsmall, if_neg hsmall, pyLog_eval (by positivity), ok_bind, ok_bind]

/-- Whatever `_infinite_cylindrical_source` returns is non-negative. -/
theorem ics_nonneg {time radius alpha g : ℝ}
    (h : infinite_cylindrical_source time radius alpha = .ok g) : 0 ≤ g := by
  rw [infinite_cylindrical_source] at h
  split at h
  · simp only [Except.ok.injEq] at h
    exact h ▸ le_rfl
  · rw [except_bind_ok] at h
    obtain ⟨u, hu, h⟩ := h
    rw [except_bind_ok] at h
    obtain ⟨g0, hg0, h⟩ := h
    simp only [Except.ok.injEq] at h
    exact h ▸ le_max_left 0 g0

/-- `_infinite_cylindrical_source` succeeds when the time and the diffusivity
are positive (any radius). -/
theorem ics_ok (radius time alpha : ℝ) (ht : 0 < time) (ha : 0 < alpha) :
    ∃ g, infinite_cylindrical_source time radius alpha = .ok g := by
  rcases le_or_lt radius 0 with hr | hr
  · exact ⟨0, by rw [infinite_cylindrical_source, if_pos (Or.inr hr)]⟩
  · exact ⟨_, ics_eval_pos ht hr ha⟩

/-- `_infinite_line_source` succeeds on positive inputs. -/
theorem ils_ok (time depth alpha : ℝ) (ht : 0 < time) (hd : 0 < depth) (ha : 0 < alpha) :
    ∃ g, infinite_line_source time depth alpha = .ok g :=
  ⟨_, ils_eval_pos ht hd ha⟩

/-- Branch selection: for `Fo < 0.01` the finite line source is the pure
infinite cylindrical source. -/
theorem fls_ics_branch {time H r alpha : ℝ} (ht : 0 < time) (hH : 0 < H) (hr : r ≠ 0)
    (hFo : alpha * time / H ^ 2 < 0.01) :
    calculate_finite_line_source time H r alpha = infinite_cylindrical_source time r alpha := by
  have hH2 : H ^ 2 ≠ 0 := pow_ne_zero 2 (ne_of_gt hH)
  rw [calculate_finite_line_source, if_neg (by push_neg; exact ⟨ht, hH⟩),
    pyDiv_eval _ hH2, ok_bind, pyDiv_eval _ hr, ok_bind, if_pos hFo]

/-- Branch selection: for `Fo > 10` the finite line source is the pure
infinite line source. -/
theorem fls_ils_branch {time H r alpha : ℝ} (ht : 0 < time) (hH : 0 < H) (hr : r ≠ 0)
    (hFo : 10 < alpha * time / H ^ 2) :
    calculate_finite_line_source time H r alpha = infinite_line_source time H alpha := by
  have hH2 : H ^ 2 ≠ 0 := pow_ne_zero 2 (ne_of_gt hH)
  rw [calculate_finite_line_source, if_neg (by push_neg; exact ⟨ht, hH⟩),
    pyDiv_eval _ hH2, ok_bind, pyDiv_eval _ hr, ok_bind,
    if_neg (by push_neg; linarith), if_pos hFo]

/-- Branch selection and closed form on the transition regime
`0.01 ≤ Fo ≤ 10`, given the values of the two blended sources. -/
theorem fls_blend_eval {time H r alpha gc gi : ℝ} (ht : 0 < time) (hH : 0 < H) (hr : r ≠ 0)
    (h1 : ¬(alpha * time / H ^ 2 < 0.01)) (h2 : ¬(10 < alpha * time / H ^ 2))
    (hgc : infinite_cylindrical_source time r alpha = .ok gc)
    (hgi : infinite_line_source time H alpha = .ok gi) :
    calculate_finite_line_source time H r alpha =
      .ok ((1 - max 0 (min 1 ((Real.log (alpha * time / H ^ 2) / Real.log 10 + 2) / 3))) * gc +
        max 0 (min 1 ((Real.log (alpha * time / H ^ 2) / Real.log 10 + 2) / 3)) * gi) := by
  have hH2 : H ^ 2 ≠ 0 := pow_ne_zero 2 (ne_of_gt hH)
  have hFo_pos : 0 < alpha * time / H ^ 2 := lt_of_lt_of_le (by norm_num) (not_lt.mp h1)
  rw [calculate_finite_line_source, if_neg (by push_neg; exact ⟨ht, hH⟩),
    pyDiv_eval _ hH2, ok_bind, pyDiv_eval _ hr, ok_bind, if_neg h1, if_neg h2,
    hgc, ok_bind, hgi, ok_bind, pyLog10_eval hFo_pos, ok_bind]

/-- Whatever `calculate_finite_line_source` returns is non-negative. -/
theorem fls_nonneg {time H r alpha g : ℝ}
    (h : calculate_finite_line_source time H r alpha = .ok g) : 0 ≤ g := by
  rw [calculate_finite_line_source] at h
  split at h
  · simp only [Except.ok.injEq] at h
    exact h ▸ le_rfl
  · rw [except_bind_ok] at h
    obtain ⟨Fo, hFo, h⟩ := h
    rw [except_bind_ok] at h
    obtain ⟨hrb, hhrb, h⟩ := h
    split at h
    · exact ics_nonneg h
    · split at h
      · exact ils_nonneg h
      · rw [except_bind_ok] at h
        obtain ⟨gc, hgc, h⟩ := h
        rw [except_bind_ok] at h
        obtain ⟨gi, hgi, h⟩ := h
        rw [except_bind_ok] at h
        obtain ⟨w0, hw0, h⟩ := h
        simp only [Except.ok.injEq] at h
        have hcn := ics_nonneg hgc
        have hin := ils_nonneg hgi
        have hw1 : 0 ≤ max 0 (min 1 ((w0 + 2) / 3)) := le_max_left 0 _
        have hw2 : max 0 (min 1 ((w0 + 2) / 3)) ≤ 1 :=
          max_le zero_le_one (min_le_left 1 _)
        have : 0 ≤ (1 - max 0 (min 1 ((w0 + 2) / 3))) * gc +
            max 0 (min 1 ((w0 + 2) / 3)) * gi := by
          have := mul_nonneg (by linarith : (0:ℝ) ≤ 1 - max 0 (min 1 ((w0 + 2) / 3))) hcn
          have := mul_nonneg hw1 hin
          linarith
        exact h ▸ this

/-- `calculate_finite_line_source` succeeds, with a non-negative value, on
positive time, depth and diffusivity and a nonzero radius. -/
theorem fls_ok {time H r alpha : ℝ} (ht : 0 < time) (hH : 0 < H) (ha : 0 < alpha)
    (hr : r ≠ 0) :
    ∃ g, calculate_finite_line_source time H r alpha = .ok g ∧ 0 ≤ g := by
  by_cases h1 : alpha * time / H ^ 2 < 0.01
  · obtain ⟨g, hg⟩ := ics_ok r time alpha ht ha
    exact ⟨g, (fls_ics_branch ht hH hr h1).trans hg, ics_nonneg hg⟩
  · by_cases h2 : 10 < alpha * time / H ^ 2
    · obtain ⟨g, hg⟩ := ils_ok time H alpha ht hH ha
      exact ⟨g, (fls_ils_branch ht hH hr h2).trans hg, ils_nonneg hg⟩
    · obtain ⟨gc, hgc⟩ := ics_ok r time alpha ht ha
      obtain ⟨gi, hgi⟩ := ils_ok time H alpha ht hH ha
      refine ⟨_, fls_blend_eval ht hH hr h1 h2 hgc hgi, ?_⟩
      have hcn := ics_nonneg hgc
      have hin := ils_nonneg hgi
      have hw1 : 0 ≤ max 0 (min 1 ((Real.log (alpha * time / H ^ 2) / Real.log 10 + 2) / 3)) :=
        le_max_left 0 _
      have hw2 : max 0 (min 1 ((Real.log (alpha * time / H ^ 2) / Real.log 10 + 2) / 3)) ≤ 1 :=
        max_le zero_le_one (min_le_left 1 _)
      have h3 := mul_nonneg
        (by linarith :
          (0:ℝ) ≤ 1 - max 0 (min 1 ((Real.log (alpha * time / H ^ 2) / Real.log 10 + 2) / 3)))
        hcn
      have h4 := mul_nonneg hw1 hin
      linarith

end GFunctionCalculator

theorem real_log_ge_one {x : ℝ} (h : 2.7182818286 ≤ x) : 1 ≤ Real.log x := by
  have hx : (0:ℝ) < x := lt_of_lt_of_le (by norm_num) h
  rw [Real.le_log_iff_exp_le hx]
  exact le_trans Real.exp_one_lt_d9.le h

theorem log_ten_ge_one : (1:ℝ) ≤ Real.log 10 := real_log_ge_one (by norm_num)

theorem log_ten_pos : (0:ℝ) < Real.log 10 := lt_of_lt_of_le zero_lt_one log_ten_ge_one

theorem log_ten_ne_zero : Real.log 10 ≠ 0 := ne_of_gt log_ten_pos

theorem log_four_ge_one : (1:ℝ) ≤ Real.log 4 := real_log_ge_one (by norm_num)

theorem real_log_le_neg_one {u : ℝ} (h0 : 0 < u) (h : u * 2.7182818286 ≤ 1) :
    Real.log u ≤ -1 := by
  rw [Real.log_le_iff_le_exp h0, Real.exp_neg, inv_eq_one_div, le_div_iff (Real.exp_pos 1)]
  have h2 : u * Real.exp 1 ≤ u * 2.7182818286 :=
    mul_le_mul_of_nonneg_left Real.exp_one_lt_d9.le h0.le
  linarith

/-- `log (1 / 10^n) = -(n * log 10)`. -/
theorem log_one_div_pow_ten (n : ℕ) : Real.log (1 / (10:ℝ) ^ n) = -(n * Real.log 10) := by
  rw [one_div, Real.log_inv, Real.log_pow]

namespace GFunctionCalculator

/-- `_infinite_cylindrical_source` is non-decreasing in the time on positive
inputs. -/
theorem ics_mono {radius alpha t1 t2 : ℝ} (hr : 0 < radius) (ha : 0 < alpha)
    (h1 : 0 < t1) (h12 : t1 ≤ t2) :
    ∃ g1 g2, infinite_cylindrical_source t1 radius alpha = .ok g1 ∧
      infinite_cylindrical_source t2 radius alpha = .ok g2 ∧ g1 ≤ g2 := by
  have h2 : 0 < t2 := lt_of_lt_of_le h1 h12
  refine ⟨_, _, ics_eval_pos h1 hr ha, ics_eval_pos h2 hr ha, ?_⟩
  have hu1p : 0 < radius ^ 2 / (4 * alpha * t1) := by positivity
  have hu2p : 0 < radius ^ 2 / (4 * alpha * t2) := by positivity
  have h21 : radius ^ 2 / (4 * alpha * t2) ≤ radius ^ 2 / (4 * alpha * t1) := by
    rw [div_le_div_iff (by positivity) (by positivity)]
    nlinarith [mul_le_mul_of_nonneg_left h12 (show (0:ℝ) ≤ radius ^ 2 * (4 * alpha) by positivity)]
  apply max_le_max le_rfl
  by_cases b1 : radius ^ 2 / (4 * alpha * t1) < 0.01
  · have b2 : radius ^ 2 / (4 * alpha * t2) < 0.01 := lt_of_le_of_lt h21 b1
    rw [if_pos b1, if_pos b2]
    have hl := Real.log_le_log hu2p h21
    linarith
  · by_cases b2 : radius ^ 2 / (4 * alpha * t2) < 0.01
    · rw [if_neg b1, if_pos b2]
      have hl := Real.log_le_log hu2p h21
      have h4 : Real.log (4 * (radius ^ 2 / (4 * alpha * t1))) =
          Real.log 4 + Real.log (radius ^ 2 / (4 * alpha * t1)) :=
        Real.log_mul (by norm_num) (ne_of_gt hu1p)
      have hg4 := log_four_ge_one
      rw [h4]
      linarith
    · rw [if_neg b1, if_neg b2]
      have hl : Real.log (4 * (radius ^ 2 / (4 * alpha * t2))) ≤
          Real.log (4 * (radius ^ 2 / (4 * alpha * t1))) :=
        Real.log_le_log (by positivity) (by linarith)
      linarith

/-- `_infinite_line_source` is non-decreasing in the time on positive
inputs. -/
theorem ils_mono {depth alpha t1 t2 : ℝ} (hd : 0 < depth) (ha : 0 < alpha)
    (h1 : 0 < t1) (h12 : t1 ≤ t2) :
    ∃ g1 g2, infinite_line_source t1 depth alpha = .ok g1 ∧
      infinite_line_source t2 depth alpha = .ok g2 ∧ g1 ≤ g2 := by
  have h2 : 0 < t2 := lt_of_lt_of_le h1 h12
  refine ⟨_, _, ils_eval_pos h1 hd ha, ils_eval_pos h2 hd ha, ?_⟩
  have hts : 0 < depth ^ 2 / (9 * alpha) := by positivity
  by_cases c1 : t1 < depth ^ 2 / (9 * alpha)
  · rw [if_pos c1]
    by_cases c2 : t2 < depth ^ 2 / (9 * alpha)
    · rw [if_pos c2]
    · rw [if_neg c2]
      have hone : 1 ≤ t2 / (depth ^ 2 / (9 * alpha)) := (one_le_div hts).mpr (not_lt.mp c2)
      have := Real.log_nonneg hone
      linarith
  · have c2 : ¬(t2 < depth ^ 2 / (9 * alpha)) := by
      push_neg at c1 ⊢
      linarith
    rw [if_neg c1, if_neg c2]
    have hdiv : t1 / (depth ^ 2 / (9 * alpha)) ≤ t2 / (depth ^ 2 / (9 * alpha)) :=
      (div_le_div_right hts).mpr h12
    have := Real.log_le_log (div_pos h1 hts) hdiv
    linarith

end GFunctionCalculator

open GFunctionCalculator in
/-- Claim C10: for every input whatsoever, `calculate_finite_line_source`
returns a value `≥ 0`.  This fails as stated: a negative thermal
diffusivity with positive time, depth and radius reaches `math.log` of a
negative argument, which raises instead of returning. -/
theorem C10_counterexample :
    calculate_finite_line_source 1 1 1 (-1) = .error math_domain_error := by
  rw [calculate_finite_line_source, if_neg (by norm_num),
    pyDiv_eval _ (by norm_num : ((1:ℝ) ^ 2) ≠ 0), ok_bind,
    pyDiv_eval _ (by norm_num : (1:ℝ) ≠ 0), ok_bind,
    if_pos (by norm_num : (-1:ℝ) * 1 / 1 ^ 2 < 0.01),
    infinite_cylindrical_source, if_neg (by norm_num),
    pyDiv_eval _ (by norm_num : (4:ℝ) * (-1) * 1 ≠ 0), ok_bind,
    if_pos (by norm_num : (1:ℝ) ^ 2 / (4 * (-1) * 1) < 0.01),
    pyLog, if_pos (by norm_num : (1:ℝ) ^ 2 / (4 * (-1) * 1) ≤ 0), error_bind, error_bind]

open GFunctionCalculator in
/-- Claim C10 (amended): whenever `calculate_finite_line_source` returns a
value (rather than raising), that value is `≥ 0`: the cylindrical-source
branch is floored at 0, the line-source branch returns `0` or
`0.5·ln(t/t_s) ≥ 0`, and the transition regime is a convex combination of
the two. -/
theorem C10_g_nonneg_on_ok :
    ∀ time borehole_depth borehole_radius thermal_diffusivity g : ℝ,
    calculate_finite_line_source time borehole_depth borehole_radius thermal_diffusivity =
      .ok g → 0 ≤ g :=
  fun _ _ _ _ _ h => fls_nonneg h

open GFunctionCalculator in
theorem C10_witness :
    calculate_finite_line_source 0 1 1 1 = .ok 0 ∧ (0:ℝ) ≤ 0 := by
  have heval : calculate_finite_line_source 0 1 1 1 = .ok 0 := by
    rw [calculate_finite_line_source, if_pos (Or.inl le_rfl)]
  exact ⟨heval, C10_g_nonneg_on_ok 0 1 1 1 0 heval⟩

open GFunctionCalculator in
/-- Claim C5: the transition-regime g-function is the linear blend
`(1−w)·g_ICS + w·g_ILS` with `w = clamp((log10 Fo + 2)/3, 0, 1)`, so at
`Fo = 0.01` the blended formula yields exactly the pure
infinite-cylindrical-source value and at `Fo = 10` exactly the pure
infinite-line-source value. -/
theorem C5_regime_continuity :
    ∀ time H r alpha : ℝ, 0 < time → 0 < H → r ≠ 0 →
    (alpha * time / H ^ 2 = 0.01 →
      calculate_finite_line_source time H r alpha =
        infinite_cylindrical_source time r alpha) ∧
    (alpha * time / H ^ 2 = 10 →
      calculate_finite_line_source time H r alpha =
        infinite_line_source time H alpha) := by
  intro time H r alpha ht hH hr
  have hH2 : (H:ℝ) ^ 2 ≠ 0 := pow_ne_zero 2 (ne_of_gt hH)
  constructor
  · intro hFo
    have hmul : alpha * time = 0.01 * H ^ 2 := by
      field_simp at hFo
      linarith
    have ha : 0 < alpha := by nlinarith [pow_pos hH 2]
    have h1 : ¬(alpha * time / H ^ 2 < 0.01) := by rw [hFo]; exact lt_irrefl _
    have h2 : ¬(10 < alpha * time / H ^ 2) := by rw [hFo]; norm_num
    obtain ⟨gc, hgc⟩ := ics_ok r time alpha ht ha
    obtain ⟨gi, hgi⟩ := ils_ok time H alpha ht hH ha
    rw [fls_blend_eval ht hH hr h1 h2 hgc hgi, hgc, hFo]
    have heq : Real.log (0.01 : ℝ) / Real.log 10 = -2 := by
      rw [show (0.01:ℝ) = 1 / (10:ℝ) ^ (2:ℕ) by norm_num, log_one_div_pow_ten,
        neg_div, mul_div_assoc, div_self log_ten_ne_zero, mul_one]
      norm_num
    rw [heq, show ((-2:ℝ) + 2) / 3 = 0 by norm_num,
      min_eq_right (by norm_num : (0:ℝ) ≤ 1), max_self]
    congr 1
    ring
  · intro hFo
    have hmul : alpha * time = 10 * H ^ 2 := by
      field_simp at hFo
      linarith
    have ha : 0 < alpha := by nlinarith [pow_pos hH 2]
    have h1 : ¬(alpha * time / H ^ 2 < 0.01) := by rw [hFo]; norm_num
    have h2 : ¬(10 < alpha * time / H ^ 2) := by rw [hFo]; exact lt_irrefl _
    obtain ⟨gc, hgc⟩ := ics_ok r time alpha ht ha
    obtain ⟨gi, hgi⟩ := ils_ok time H alpha ht hH ha
    rw [fls_blend_eval ht hH hr h1 h2 hgc hgi, hgi, hFo]
    have heq : Real.log (10 : ℝ) / Real.log 10 = 1 := div_self log_ten_ne_zero
    rw [heq, show ((1:ℝ) + 2) / 3 = 1 by norm_num, min_self,
      max_eq_right (by norm_num : (0:ℝ) ≤ 1)]
    congr 1
    ring

open GFunctionCalculator in
theorem C5_witness :
    calculate_finite_line_source 1 1 1 (1/100) = infinite_cylindrical_source 1 1 (1/100) ∧
    calculate_finite_line_source 1000 1 1 (1/100) = infinite_line_source 1000 1 (1/100) :=
  ⟨(C5_regime_continuity 1 1 1 (1/100) (by norm_num) (by norm_num) (by norm_num)).1
      (by norm_num),
    (C5_regime_continuity 1000 1 1 (1/100) (by norm_num) (by norm_num) (by norm_num)).2
      (by norm_num)⟩

open GFunctionCalculator in
/-- Claim C4: `calculate_finite_line_source` is claimed non-decreasing in
time for every fixed positive depth, radius and diffusivity.  This fails:
with `H = 100`, `r_b = 1/50`, `α = 10⁻⁶` the value at `t = 10⁷ s` (pure
cylindrical-source regime, `Fo = 0.001`) strictly exceeds the value at
`t = 10⁹ s` (transition regime, `Fo = 0.1`, where the blend weight `1/3`
multiplies the cylindrical value while the line-source term is still 0). -/
theorem C4_counterexample :
    calculate_finite_line_source 10000000 100 (1/50) (1/1000000) =
      .ok (-0.5 * (Real.log ((1:ℝ)/100000) + 0.5772156649)) ∧
    calculate_finite_line_source 1000000000 100 (1/50) (1/1000000) =
      .ok (2/3 * (-0.5 * (Real.log ((1:ℝ)/10000000) + 0.5772156649))) ∧
    2/3 * (-0.5 * (Real.log ((1:ℝ)/10000000) + 0.5772156649)) <
      -0.5 * (Real.log ((1:ℝ)/100000) + 0.5772156649) := by
  have hL := log_ten_ge_one
  have h5 : Real.log ((1:ℝ)/100000) = -(5 * Real.log 10) := by
    rw [show ((1:ℝ)/100000) = 1 / (10:ℝ) ^ (5:ℕ) by norm_num, log_one_div_pow_ten]
    norm_num
  have h7 : Real.log ((1:ℝ)/10000000) = -(7 * Real.log 10) := by
    rw [show ((1:ℝ)/10000000) = 1 / (10:ℝ) ^ (7:ℕ) by norm_num, log_one_div_pow_ten]
    norm_num
  refine ⟨?_, ?_, ?_⟩
  · rw [fls_ics_branch (by norm_num) (by norm_num) (by norm_num)
        (by norm_num : (1:ℝ)/1000000 * 10000000 / 100 ^ 2 < 0.01),
      ics_eval_pos (by norm_num) (by norm_num) (by norm_num)]
    congr 1
    rw [show ((1:ℝ)/50) ^ 2 / (4 * (1/1000000) * 10000000) = 1/100000 by norm_num,
      if_pos (by norm_num : (1:ℝ)/100000 < 0.01)]
    rw [max_eq_right]
    rw [h5]
    linarith
  · have hgc : infinite_cylindrical_source 1000000000 (1/50) (1/1000000) =
        .ok (-0.5 * (Real.log ((1:ℝ)/10000000) + 0.5772156649)) := by
      rw [ics_eval_pos (by norm_num) (by norm_num) (by norm_num)]
      congr 1
      rw [show ((1:ℝ)/50) ^ 2 / (4 * (1/1000000) * 1000000000) = 1/10000000 by norm_num,
        if_pos (by norm_num : (1:ℝ)/10000000 < 0.01)]
      rw [max_eq_right]
      rw [h7]
      linarith
    have hgi : infinite_line_source 1000000000 100 (1/1000000) = .ok 0 := by
      rw [ils_eval_pos (by norm_num) (by norm_num) (by norm_num),
        if_pos (by norm_num : (1000000000:ℝ) < 100 ^ 2 / (9 * (1/1000000)))]
    rw [fls_blend_eval (by norm_num) (by norm_num) (by norm_num)
        (by norm_num : ¬((1:ℝ)/1000000 * 1000000000 / 100 ^ 2 < 0.01))
        (by norm_num : ¬(10 < (1:ℝ)/1000000 * 1000000000 / 100 ^ 2)) hgc hgi]
    have hw : max 0 (min 1 ((Real.log ((1:ℝ)/1000000 * 1000000000 / 100 ^ 2) /
        Real.log 10 + 2) / 3)) = 1/3 := by
      rw [show ((1:ℝ)/1000000 * 1000000000 / 100 ^ 2) = 1 / (10:ℝ) ^ (1:ℕ) by norm_num,
        log_one_div_pow_ten]
      rw [show (-((1:ℕ) * Real.log 10)) = -Real.log 10 by norm_num, neg_div,
        div_self log_ten_ne_zero]
      rw [show (-(1:ℝ) + 2) / 3 = 1/3 by norm_num,
        min_eq_right (by norm_num : (1:ℝ)/3 ≤ 1), max_eq_right (by norm_num : (0:ℝ) ≤ 1/3)]
    rw [hw]
    congr 1
    ring
  · rw [h5, h7]
    linarith

open GFunctionCalculator in
/-- Claim C4 (amended): for fixed positive depth, radius and diffusivity the
g-function is non-decreasing in time as long as both times lie in the same
pure regime — both in the cylindrical-source regime (`Fo < 0.01`) or both in
the line-source regime (`Fo > 10`).  Across the blended transition regime
monotonicity can fail (see the counterexample). -/
theorem C4_regime_monotonicity :
    ∀ H r alpha t1 t2 : ℝ, 0 < H → 0 < r → 0 < alpha → 0 < t1 → t1 ≤ t2 →
    (alpha * t2 / H ^ 2 < 0.01 ∨ 10 < alpha * t1 / H ^ 2) →
    ∃ g1 g2, calculate_finite_line_source t1 H r alpha = .ok g1 ∧
      calculate_finite_line_source t2 H r alpha = .ok g2 ∧ g1 ≤ g2 := by
  intro H r alpha t1 t2 hH hr ha h1 h12 hcase
  have h2 : 0 < t2 := lt_of_lt_of_le h1 h12
  have hmonoFo : alpha * t1 / H ^ 2 ≤ alpha * t2 / H ^ 2 :=
    (div_le_div_right (by positivity)).mpr (mul_le_mul_of_nonneg_left h12 ha.le)
  rcases hcase with hics | hils
  · have hFo1 : alpha * t1 / H ^ 2 < 0.01 := lt_of_le_of_lt hmonoFo hics
    rw [fls_ics_branch h1 hH (ne_of_gt hr) hFo1, fls_ics_branch h2 hH (ne_of_gt hr) hics]
    exact ics_mono hr ha h1 h12
  · have hFo2 : 10 < alpha * t2 / H ^ 2 := lt_of_lt_of_le hils hmonoFo
    rw [fls_ils_branch h1 hH (ne_of_gt hr) hils, fls_ils_branch h2 hH (ne_of_gt hr) hFo2]
    exact ils_mono hH ha h1 h12

open GFunctionCalculator in
theorem C4_witness :
    ∃ g1 g2, calculate_finite_line_source 100 1 1 1 = .ok g1 ∧
      calculate_finite_line_source 1000 1 1 1 = .ok g2 ∧ g1 ≤ g2 :=
  C4_regime_monotonicity 1 1 1 100 1000 (by norm_num) (by norm_num) (by norm_num)
    (by norm_num) (by norm_num) (Or.inr (by norm_num))

open GFunctionCalculator in
/-- Helper for the C3 counterexample: the 10-year g-function value at
`H = 100`, `r_b = 1/100`, `α = 1/315576` (`Fo = 0.1`, transition regime). -/
theorem c3_g_grundlast_eval :
    calculate_finite_line_source (10 * 365.25 * 24 * 3600) 100 (1/100) (1/315576) =
      .ok (2/3 * (-0.5 * (Real.log ((1:ℝ)/40000000) + 0.5772156649))) := by
  have hgc : infinite_cylindrical_source (10 * 365.25 * 24 * 3600) (1/100) (1/315576) =
      .ok (-0.5 * (Real.log ((1:ℝ)/40000000) + 0.5772156649)) := by
    rw [ics_eval_pos (by norm_num) (by norm_num) (by norm_num)]
    congr 1
    rw [show ((1:ℝ)/100) ^ 2 / (4 * (1/315576) * (10 * 365.25 * 24 * 3600)) = 1/40000000
        by norm_num,
      if_pos (by norm_num : (1:ℝ)/40000000 < 0.01)]
    rw [max_eq_right]
    have := real_log_le_neg_one (show (0:ℝ) < 1/40000000 by norm_num)
      (by norm_num : ((1:ℝ)/40000000) * 2.7182818286 ≤ 1)
    linarith
  have hgi : infinite_line_source (10 * 365.25 * 24 * 3600) 100 (1/315576) = .ok 0 := by
    rw [ils_eval_pos (by norm_num) (by norm_num) (by norm_num),
      if_pos (by norm_num : (10 * 365.25 * 24 * 3600 : ℝ) < 100 ^ 2 / (9 * (1/315576)))]
  rw [fls_blend_eval (by norm_num) (by norm_num) (by norm_num)
      (by norm_num : ¬((1:ℝ)/315576 * (10 * 365.25 * 24 * 3600) / 100 ^ 2 < 0.01))
      (by norm_num : ¬(10 < (1:ℝ)/315576 * (10 * 365.25 * 24 * 3600) / 100 ^ 2)) hgc hgi]
  have hw : max 0 (min 1 ((Real.log ((1:ℝ)/315576 * (10 * 365.25 * 24 * 3600) / 100 ^ 2) /
      Real.log 10 + 2) / 3)) = 1/3 := by
    rw [show ((1:ℝ)/315576 * (10 * 365.25 * 24 * 3600) / 100 ^ 2) = 1 / (10:ℝ) ^ (1:ℕ)
        by norm_num,
      log_one_div_pow_ten]
    rw [show (-(((1:ℕ):ℝ) * Real.log 10)) = -Real.log 10 by push_cast; ring, neg_div,
      div_self log_ten_ne_zero]
    rw [show (-(1:ℝ) + 2) / 3 = 1/3 by norm_num,
      min_eq_right (by norm_num : (1:ℝ)/3 ≤ 1), max_eq_right (by norm_num : (0:ℝ) ≤ 1/3)]
  rw [hw]
  congr 1
  ring

open GFunctionCalculator in
/-- Helper for the C3 counterexample: the 1-month g-function value at the
same parameters (`Fo ≈ 8.2·10⁻⁴`, pure cylindrical-source regime). -/
theorem c3_g_per_eval :
    calculate_finite_line_source (30 * 24 * 3600) 100 (1/100) (1/315576) =
      .ok (-0.5 * (Real.log ((487:ℝ)/160000000) + 0.5772156649)) := by
  rw [fls_ics_branch (by norm_num) (by norm_num) (by norm_num)
      (by norm_num : (1:ℝ)/315576 * (30 * 24 * 3600) / 100 ^ 2 < 0.01),
    ics_eval_pos (by norm_num) (by norm_num) (by norm_num)]
  congr 1
  rw [show ((1:ℝ)/100) ^ 2 / (4 * (1/315576) * (30 * 24 * 3600)) = 487/160000000 by norm_num,
    if_pos (by norm_num : (487:ℝ)/160000000 < 0.01)]
  rw [max_eq_right]
  have := real_log_le_neg_one (show (0:ℝ) < 487/160000000 by norm_num)
    (by norm_num : ((487:ℝ)/160000000) * 2.7182818286 ≤ 1)
  linarith

open GFunctionCalculator in
/-- Helper for the C3 counterexample: the 6-hour g-function value at the
same parameters (pure cylindrical-source regime). -/
theorem c3_g_peak_eval :
    calculate_finite_line_source (6 * 3600) 100 (1/100) (1/315576) =
      .ok (-0.5 * (Real.log ((1461:ℝ)/4000000) + 0.5772156649)) := by
  rw [fls_ics_branch (by norm_num) (by norm_num) (by norm_num)
      (by norm_num : (1:ℝ)/315576 * (6 * 3600) / 100 ^ 2 < 0.01),
    ics_eval_pos (by norm_num) (by norm_num) (by norm_num)]
  congr 1
  rw [show ((1:ℝ)/100) ^ 2 / (4 * (1/315576) * (6 * 3600)) = 1461/4000000 by norm_num,
    if_pos (by norm_num : (1461:ℝ)/4000000 < 0.01)]
  rw [max_eq_right]
  have := real_log_le_neg_one (show (0:ℝ) < 1461/4000000 by norm_num)
    (by norm_num : ((1461:ℝ)/4000000) * 2.7182818286 ≤ 1)
  linarith

/-- Claim C3: the three VDI4640 thermal resistances are claimed to satisfy
`R_grundlast ≥ R_per ≥ R_peak ≥ 0` for every valid ground/geometry input.
This fails: at `λ = 2`, `α = 1/315576 ≈ 3.17·10⁻⁶ m²/s`, `H = 100`,
`r_b = 1/100` (all positive) the 10-year resistance is strictly smaller
than the 1-month resistance, because the 10-year timescale falls in the
transition regime, whose blend weight shrinks the cylindrical-source value
faster than it grows. -/
theorem C3_counterexample :
    VDI4640Calculator.calculate_thermal_resistances 2 (1/315576) 100 (1/100) = .ok {
      r_grundlast :=
        2/3 * (-0.5 * (Real.log ((1:ℝ)/40000000) + 0.5772156649)) / (2 * Real.pi * 2),
      r_per := -0.5 * (Real.log ((487:ℝ)/160000000) + 0.5772156649) / (2 * Real.pi * 2),
      r_peak := -0.5 * (Real.log ((1461:ℝ)/4000000) + 0.5772156649) / (2 * Real.pi * 2),
      g_grundlast := 2/3 * (-0.5 * (Real.log ((1:ℝ)/40000000) + 0.5772156649)),
      g_per := -0.5 * (Real.log ((487:ℝ)/160000000) + 0.5772156649),
      g_peak := -0.5 * (Real.log ((1461:ℝ)/4000000) + 0.5772156649) } ∧
    2/3 * (-0.5 * (Real.log ((1:ℝ)/40000000) + 0.5772156649)) / (2 * Real.pi * 2) <
      -0.5 * (Real.log ((487:ℝ)/160000000) + 0.5772156649) / (2 * Real.pi * 2) := by
  have hden : (2:ℝ) * Real.pi * 2 ≠ 0 := by positivity
  constructor
  · simp only [VDI4640Calculator.calculate_thermal_resistances]
    rw [c3_g_grundlast_eval, ok_bind, c3_g_per_eval, ok_bind, c3_g_peak_eval, ok_bind,
      pyDiv_eval _ hden, ok_bind, pyDiv_eval _ hden, ok_bind, pyDiv_eval _ hden, ok_bind]
  · have hcore : 2/3 * (-0.5 * (Real.log ((1:ℝ)/40000000) + 0.5772156649)) <
        -0.5 * (Real.log ((487:ℝ)/160000000) + 0.5772156649) := by
      have h2A : Real.log (((1:ℝ)/40000000) ^ (2:ℕ)) = 2 * Real.log ((1:ℝ)/40000000) := by
        rw [Real.log_pow]
        norm_num
      have h3B : Real.log (((487:ℝ)/160000000) ^ (3:ℕ)) =
          3 * Real.log ((487:ℝ)/160000000) := by
        rw [Real.log_pow]
        norm_num
      have hdiff : Real.log ((((1:ℝ)/40000000) ^ (2:ℕ)) / (((487:ℝ)/160000000) ^ (3:ℕ))) =
          2 * Real.log ((1:ℝ)/40000000) - 3 * Real.log ((487:ℝ)/160000000) := by
        rw [Real.log_div (by norm_num) (by norm_num), h2A, h3B]
      have hX : ((((1:ℝ)/40000000) ^ (2:ℕ)) / (((487:ℝ)/160000000) ^ (3:ℕ))) =
          2560000000/115501303 := by norm_num
      have hge : (1:ℝ) ≤ 2 * Real.log ((1:ℝ)/40000000) -
          3 * Real.log ((487:ℝ)/160000000) := by
        rw [← hdiff, hX]
        exact real_log_ge_one (by norm_num)
      linarith
    have hpos : (0:ℝ) < 2 * Real.pi * 2 := by positivity
    exact div_lt_div_of_pos_right hcore hpos

open GFunctionCalculator in
/-- `_calculate_thermal_resistances` succeeds with non-negative resistances
on positive conductivity, diffusivity and depth and a nonzero radius. -/
theorem resistances_ok_nonneg (lambda_ground alpha_ground h_sonde r_borehole : ℝ)
    (hlg : 0 < lambda_ground) (hag : 0 < alpha_ground) (hhs : 0 < h_sonde)
    (hrb : r_borehole ≠ 0) :
    ∃ R : VDI4640Calculator.ThermalResistances,
      VDI4640Calculator.calculate_thermal_resistances lambda_ground alpha_ground h_sonde
        r_borehole = .ok R ∧
      0 ≤ R.r_grundlast ∧ 0 ≤ R.r_per ∧ 0 ≤ R.r_peak := by
  obtain ⟨g1, hg1, hn1⟩ := fls_ok (show (0:ℝ) < 10 * 365.25 * 24 * 3600 by norm_num)
    hhs hag hrb
  obtain ⟨g2, hg2, hn2⟩ := fls_ok (show (0:ℝ) < 30 * 24 * 3600 by norm_num) hhs hag hrb
  obtain ⟨g3, hg3, hn3⟩ := fls_ok (show (0:ℝ) < 6 * 3600 by norm_num) hhs hag hrb
  have hden : (2:ℝ) * Real.pi * lambda_ground ≠ 0 := by positivity
  have hdenpos : (0:ℝ) ≤ 2 * Real.pi * lambda_ground := by positivity
  refine ⟨⟨g1 / (2 * Real.pi * lambda_ground), g2 / (2 * Real.pi * lambda_ground),
      g3 / (2 * Real.pi * lambda_ground), g1, g2, g3⟩, ?_, ?_, ?_, ?_⟩
  · simp only [VDI4640Calculator.calculate_thermal_resistances]
    rw [hg1, ok_bind, hg2, ok_bind, hg3, ok_bind, pyDiv_eval _ hden, ok_bind,
      pyDiv_eval _ hden, ok_bind, pyDiv_eval _ hden, ok_bind]
  · exact div_nonneg hn1 hdenpos
  · exact div_nonneg hn2 hdenpos
  · exact div_nonneg hn3 hdenpos

/-- Claim C3 (amended): for every valid ground/geometry input (positive
conductivity, diffusivity and depth, nonzero borehole radius) the three
VDI4640 thermal resistances are computed successfully and are all `≥ 0`;
the claimed ordering `R_grundlast ≥ R_per ≥ R_peak` does not hold in
general (see the counterexample). -/
theorem C3_resistances_nonneg :
    ∀ lambda_ground alpha_ground h_sonde r_borehole : ℝ,
    0 < lambda_ground → 0 < alpha_ground → 0 < h_sonde → r_borehole ≠ 0 →
    ∃ R : VDI4640Calculator.ThermalResistances,
      VDI4640Calculator.calculate_thermal_resistances lambda_ground alpha_ground h_sonde
        r_borehole = .ok R ∧
      0 ≤ R.r_grundlast ∧ 0 ≤ R.r_per ∧ 0 ≤ R.r_peak :=
  fun lambda_ground alpha_ground h_sonde r_borehole hlg hag hhs hrb =>
    resistances_ok_nonneg lambda_ground alpha_ground h_sonde r_borehole hlg hag hhs hrb

theorem C3_witness :
    ∃ R : VDI4640Calculator.ThermalResistances,
      VDI4640Calculator.calculate_thermal_resistances 2 (1/1000000) 100 (1/100) = .ok R ∧
      0 ≤ R.r_grundlast ∧ 0 ≤ R.r_per ∧ 0 ≤ R.r_peak :=
  C3_resistances_nonneg 2 (1/1000000) 100 (1/100) (by norm_num) (by norm_num)
    (by norm_num) (by norm_num)

theorem pyDiv_zero (a : ℝ) : pyDiv a 0 = .error zero_division_error := by
  simp [pyDiv]

theorem pyPow_eval {x : ℝ} (y : ℝ) (h : 0 ≤ x) : pyPow x y = .ok (x ^ y) := by
  simp [pyPow, not_lt.mpr h]

/-- The Python `max` of a nonempty list is an element of the list. -/
theorem foldl_max_mem (f0 : ℝ) (fs : List ℝ) : fs.foldl max f0 ∈ f0 :: fs := by
  induction fs generalizing f0 with
  | nil => simp
  | cons a as ih =>
    rw [List.foldl_cons]
    rcases List.mem_cons.mp (ih (max f0 a)) with h1 | h1
    · rcases max_choice f0 a with hm | hm
      · rw [h1, hm]
        exact List.mem_cons_self _ _
      · rw [h1, hm]
        exact List.mem_cons_of_mem _ (List.mem_cons_self _ _)
    · exact List.mem_cons_of_mem _ (List.mem_cons_of_mem _ h1)

/-- The Python `max` of a nonempty list bounds every element. -/
theorem le_foldl_max (f0 : ℝ) (fs : List ℝ) : ∀ x ∈ f0 :: fs, x ≤ fs.foldl max f0 := by
  induction fs generalizing f0 with
  | nil =>
    intro x hx
    rw [List.mem_singleton] at hx
    simp [hx]
  | cons a as ih =>
    intro x hx
    rw [List.foldl_cons]
    rcases List.mem_cons.mp hx with rfl | hx1
    · exact le_trans (le_max_left x a) (ih (max x a) _ (List.mem_cons_self _ _))
    · rcases List.mem_cons.mp hx1 with rfl | hx2
      · exact le_trans (le_max_right f0 x) (ih (max f0 x) _ (List.mem_cons_self _ _))
      · exact ih (max f0 a) x (List.mem_cons_of_mem _ hx2)

/-- Evaluation of `_calculate_loads` on a nonempty factor list and a nonzero
COP, for either mode. -/
theorem calculate_loads_eval (annual_demand peak_load f0 : ℝ) (fs : List ℝ) (cop : ℝ)
    (b : Bool) (h : cop ≠ 0) :
    VDI4640Calculator.calculate_loads annual_demand peak_load (f0 :: fs) cop b = .ok {
      q_nettogrundlast :=
        annual_demand * ((if b then cop - 1 else cop + 1) / cop) * 1000 / 8760,
      q_per := annual_demand * (fs.foldl max f0) *
        ((if b then cop - 1 else cop + 1) / cop) * 1000 / 730,
      q_peak := peak_load * 1000 * ((if b then cop - 1 else cop + 1) / cop) } := by
  cases b <;>
    simp only [VDI4640Calculator.calculate_loads, Bool.false_eq_true, if_false, if_true,
      pyDiv_eval _ h, ok_bind]

/-- `_calculate_borehole_length` raises for a non-positive reaction
temperature difference. -/
theorem borehole_length_error (q_grundlast q_per q_peak r_grundlast r_per r_peak r_borehole
    t_ground t_fluid_limit : ℝ) (n_boreholes : ℤ) (heating : Bool)
    (hle : (if heating then t_ground - t_fluid_limit else t_fluid_limit - t_ground) ≤ 0) :
    VDI4640Calculator.calculate_borehole_length q_grundlast q_per q_peak r_grundlast r_per
      r_peak r_borehole t_ground t_fluid_limit n_boreholes heating =
      .error invalid_delta_t_error := by
  simp only [VDI4640Calculator.calculate_borehole_length]
  rw [if_pos hle]

/-- `_calculate_borehole_length` evaluates to the VDI 4640 quotient for a
positive reaction temperature difference and a nonzero borehole count. -/
theorem borehole_length_eval (q_grundlast q_per q_peak r_grundlast r_per r_peak r_borehole
    t_ground t_fluid_limit : ℝ) (n_boreholes : ℤ) (heating : Bool)
    (hpos : 0 < (if heating then t_ground - t_fluid_limit else t_fluid_limit - t_ground))
    (hn : n_boreholes ≠ 0) :
    VDI4640Calculator.calculate_borehole_length q_grundlast q_per q_peak r_grundlast r_per
      r_peak r_borehole t_ground t_fluid_limit n_boreholes heating =
      .ok ((|q_grundlast| * (r_grundlast + r_borehole) + |q_per| * (r_per + r_borehole) +
        |q_peak| * (r_peak + r_borehole)) /
        ((if heating then t_ground - t_fluid_limit else t_fluid_limit - t_ground) *
          (n_boreholes : ℝ))) := by
  have hden :
      (if heating then t_ground - t_fluid_limit else t_fluid_limit - t_ground) *
        (n_boreholes : ℝ) ≠ 0 :=
    mul_ne_zero (ne_of_gt hpos) (Int.cast_ne_zero.mpr hn)
  simp only [VDI4640Calculator.calculate_borehole_length]
  rw [if_neg (not_le.mpr hpos), pyDiv_eval _ hden]

/-- `_calculate_wp_exit_temperature` succeeds for a positive depth and a
nonzero borehole count. -/
theorem wp_exit_ok (h_sonde : ℝ) (n_boreholes : ℤ) (q_grundlast q_per q_peak r_grundlast
    r_per r_peak r_borehole lambda_ground t_undisturbed delta_t_fluid : ℝ) (heating : Bool)
    (hpos : 0 < h_sonde) (hn : n_boreholes ≠ 0) :
    ∃ v, VDI4640Calculator.calculate_wp_exit_temperature h_sonde n_boreholes q_grundlast
      q_per q_peak r_grundlast r_per r_peak r_borehole lambda_ground t_undisturbed
      delta_t_fluid heating = .ok v := by
  have hne : h_sonde * (n_boreholes : ℝ) ≠ 0 :=
    mul_ne_zero (ne_of_gt hpos) (Int.cast_ne_zero.mpr hn)
  exact ⟨_, by
    simp only [VDI4640Calculator.calculate_wp_exit_temperature]
    rw [if_pos hpos, pyDiv_eval _ hne, ok_bind, if_pos hpos, pyDiv_eval _ hne, ok_bind,
      if_pos hpos, pyDiv_eval _ hne, ok_bind]⟩

/-- Claim C2 (amended): `_calculate_borehole_length` raises exactly when the
reaction temperature difference is non-positive; for a strictly positive
difference and a nonzero borehole count it returns the VDI 4640 depth
without raising.  (With `n_boreholes = 0` the final division raises a
`ZeroDivisionError` even for a positive temperature difference, see the
counterexample.) -/
theorem C2_borehole_length_error_conditions :
    ∀ (q_grundlast q_per q_peak r_grundlast r_per r_peak r_borehole
       t_ground t_fluid_limit : ℝ) (n_boreholes : ℤ) (heating : Bool),
    ((if heating then t_ground - t_fluid_limit else t_fluid_limit - t_ground) ≤ 0 →
      VDI4640Calculator.calculate_borehole_length q_grundlast q_per q_peak r_grundlast r_per
        r_peak r_borehole t_ground t_fluid_limit n_boreholes heating =
        .error invalid_delta_t_error) ∧
    (0 < (if heating then t_ground - t_fluid_limit else t_fluid_limit - t_ground) →
      n_boreholes ≠ 0 →
      VDI4640Calculator.calculate_borehole_length q_grundlast q_per q_peak r_grundlast r_per
        r_peak r_borehole t_ground t_fluid_limit n_boreholes heating =
        .ok ((|q_grundlast| * (r_grundlast + r_borehole) + |q_per| * (r_per + r_borehole) +
          |q_peak| * (r_peak + r_borehole)) /
          ((if heating then t_ground - t_fluid_limit else t_fluid_limit - t_ground) *
            (n_boreholes : ℝ)))) := by
  intro q_grundlast q_per q_peak r_grundlast r_per r_peak r_borehole t_ground t_fluid_limit
    n_boreholes heating
  exact ⟨borehole_length_error q_grundlast q_per q_peak r_grundlast r_per r_peak r_borehole
      t_ground t_fluid_limit n_boreholes heating,
    fun hpos hn => borehole_length_eval q_grundlast q_per q_peak r_grundlast r_per r_peak
      r_borehole t_ground t_fluid_limit n_boreholes heating hpos hn⟩

/-- Claim C2: `_calculate_borehole_length` is claimed to return a depth
without raising whenever the reaction temperature difference is strictly
positive.  This fails for `n_boreholes = 0`: the division by
`ΔT_reaction * n_boreholes = 0` raises a `ZeroDivisionError` although
`ΔT_reaction = 12 > 0`. -/
theorem C2_counterexample :
    VDI4640Calculator.calculate_borehole_length 1 1 1 1 1 1 (1/10) 10 (-2) 0 true =
      .error zero_division_error := by
  simp only [VDI4640Calculator.calculate_borehole_length, if_true]
  rw [if_neg (by norm_num : ¬((10:ℝ) - (-2) ≤ 0))]
  norm_num [pyDiv_zero]

/-- Claim C6: `_calculate_loads` computes the efficiency factor `(c−1)/c`
for heating and `(c+1)/c` for cooling, the base load
`annual·eff·1000/8760 W`, the periodic load
`annual·max(monthly_factors)·eff·1000/730 W` from the single largest
monthly factor, and the peak load `peak_kW·1000·eff W`. -/
theorem C6_load_decomposition :
    ∀ (annual_demand peak_load f0 : ℝ) (fs : List ℝ) (cop : ℝ), cop ≠ 0 →
    VDI4640Calculator.calculate_loads annual_demand peak_load (f0 :: fs) cop true = .ok {
        q_nettogrundlast := annual_demand * ((cop - 1) / cop) * 1000 / 8760,
        q_per := annual_demand * (fs.foldl max f0) * ((cop - 1) / cop) * 1000 / 730,
        q_peak := peak_load * 1000 * ((cop - 1) / cop) } ∧
    VDI4640Calculator.calculate_loads annual_demand peak_load (f0 :: fs) cop false = .ok {
        q_nettogrundlast := annual_demand * ((cop + 1) / cop) * 1000 / 8760,
        q_per := annual_demand * (fs.foldl max f0) * ((cop + 1) / cop) * 1000 / 730,
        q_peak := peak_load * 1000 * ((cop + 1) / cop) } ∧
    fs.foldl max f0 ∈ f0 :: fs ∧ (∀ x ∈ f0 :: fs, x ≤ fs.foldl max f0) := by
  intro annual_demand peak_load f0 fs cop h
  refine ⟨?_, ?_, foldl_max_mem f0 fs, le_foldl_max f0 fs⟩
  · have := calculate_loads_eval annual_demand peak_load f0 fs cop true h
    simpa using this
  · have := calculate_loads_eval annual_demand peak_load f0 fs cop false h
    simpa using this

theorem C6_witness :
    VDI4640Calculator.calculate_loads 15000 8 [0.155, 0.3] 4 true = .ok {
        q_nettogrundlast := 15000 * ((4 - 1) / 4) * 1000 / 8760,
        q_per := 15000 * ([0.3].foldl max 0.155) * ((4 - 1) / 4) * 1000 / 730,
        q_peak := 8 * 1000 * ((4 - 1) / 4) } ∧
    VDI4640Calculator.calculate_loads 15000 8 [0.155, 0.3] 4 false = .ok {
        q_nettogrundlast := 15000 * ((4 + 1) / 4) * 1000 / 8760,
        q_per := 15000 * ([0.3].foldl max 0.155) * ((4 + 1) / 4) * 1000 / 730,
        q_peak := 8 * 1000 * ((4 + 1) / 4) } ∧
    [0.3].foldl max 0.155 ∈ [(0.155:ℝ), 0.3] ∧
    (∀ x ∈ [(0.155:ℝ), 0.3], x ≤ [0.3].foldl max 0.155) :=
  C6_load_decomposition 15000 8 0.155 [0.3] 4 (by norm_num)

/-- Claim C8: a depth `≤ 0` in the VDI4640 per-meter load calculation is
claimed to raise an error.  This fails: `_calculate_wp_exit_temperature`
guards each division with `if h_sonde > 0 else 0` and silently returns
`T_undisturbed − 0.5·ΔT_fluid` with zero per-meter deltas. -/
theorem C8_counterexample :
    VDI4640Calculator.calculate_wp_exit_temperature 0 1 5 5 5 1 1 1 (1/10) 2 10 3 true =
      .ok (8.5, 0, 0, 0) := by
  simp only [VDI4640Calculator.calculate_wp_exit_temperature,
    if_neg (lt_irrefl (0:ℝ)), ok_bind, if_true]
  simp only [Except.ok.injEq, Prod.mk.injEq]
  norm_num

/-- Claim C8 (amended): for every depth `≤ 0`, `_calculate_wp_exit_temperature`
does not raise; it sets all three per-meter loads to `0` and returns
`T_undisturbed − 0.5·ΔT_fluid` with zero temperature deltas. -/
theorem C8_wp_exit_silent_on_nonpositive_depth :
    ∀ (h_sonde : ℝ) (n_boreholes : ℤ) (q_grundlast q_per q_peak r_grundlast r_per r_peak
       r_borehole lambda_ground t_undisturbed delta_t_fluid : ℝ) (heating : Bool),
    h_sonde ≤ 0 →
    VDI4640Calculator.calculate_wp_exit_temperature h_sonde n_boreholes q_grundlast q_per
      q_peak r_grundlast r_per r_peak r_borehole lambda_ground t_undisturbed delta_t_fluid
      heating =
      .ok (t_undisturbed - 0.5 * delta_t_fluid, 0, 0, 0) := by
  intro h_sonde n_boreholes q_grundlast q_per q_peak r_grundlast r_per r_peak r_borehole
    lambda_ground t_undisturbed delta_t_fluid heating hle
  simp only [VDI4640Calculator.calculate_wp_exit_temperature, if_neg (not_lt.mpr hle),
    ok_bind]
  simp only [Except.ok.injEq, Prod.mk.injEq]
  refine ⟨by ring, by ring, by ring, by ring⟩

theorem C8_witness :
    (-1 : ℝ) ≤ 0 ∧
    VDI4640Calculator.calculate_wp_exit_temperature (-1) 2 1 2 3 4 5 6 7 8 9 4 false =
      .ok (9 - 0.5 * 4, 0, 0, 0) :=
  ⟨by norm_num,
    C8_wp_exit_silent_on_nonpositive_depth (-1) 2 1 2 3 4 5 6 7 8 9 4 false (by norm_num)⟩

/-- Claim C9: the convection-resistance formula is claimed for every input
with positive inner diameter and flow rate.  This fails when the fluid
viscosity is `0`: the Reynolds-number division raises a
`ZeroDivisionError`. -/
theorem C9_counterexample :
    ThermalResistanceCalculator.calculate_convection_resistance 1 1 1 0 1 1 =
      .error zero_division_error := by
  simp only [ThermalResistanceCalculator.calculate_convection_resistance]
  rw [if_neg (by norm_num)]
  rw [pyDiv_eval _ (show Real.pi * ((1:ℝ) / 2) ^ 2 ≠ 0 by positivity), ok_bind,
    pyDiv_zero, error_bind]

/-- Claim C9 (amended): for a positive inner diameter and flow rate, a
nonzero viscosity and fluid conductivity, and (in the turbulent branch) a
positive Prandtl number, the convection resistance is exactly
`1/(h·π·D)` with `h = Nu·λ/D`, `Nu = 3.66` for `Re ≤ 2300` and
`Nu = 0.023·Re^0.8·Pr^0.4` for `Re > 2300`; for `D ≤ 0` or
`flowRate ≤ 0` it returns `0` without raising. -/
theorem C9_convection_formula :
    ∀ inner_diameter flow_rate fluid_thermal_conductivity fluid_viscosity fluid_density
      fluid_heat_capacity : ℝ,
    (inner_diameter ≤ 0 ∨ flow_rate ≤ 0 →
      ThermalResistanceCalculator.calculate_convection_resistance inner_diameter flow_rate
        fluid_thermal_conductivity fluid_viscosity fluid_density fluid_heat_capacity =
        .ok 0) ∧
    (0 < inner_diameter → 0 < flow_rate → fluid_viscosity ≠ 0 →
      fluid_thermal_conductivity ≠ 0 →
      (fluid_density * (flow_rate / (Real.pi * (inner_diameter / 2) ^ 2)) * inner_diameter /
          fluid_viscosity ≤ 2300 →
        ThermalResistanceCalculator.calculate_convection_resistance inner_diameter flow_rate
          fluid_thermal_conductivity fluid_viscosity fluid_density fluid_heat_capacity =
          .ok (1 / (3.66 * fluid_thermal_conductivity / inner_diameter * Real.pi *
            inner_diameter))) ∧
      (2300 < fluid_density * (flow_rate / (Real.pi * (inner_diameter / 2) ^ 2)) *
          inner_diameter / fluid_viscosity →
        0 < fluid_viscosity * fluid_heat_capacity / fluid_thermal_conductivity →
        ThermalResistanceCalculator.calculate_convection_resistance inner_diameter flow_rate
          fluid_thermal_conductivity fluid_viscosity fluid_density fluid_heat_capacity =
          .ok (1 / (0.023 *
            (fluid_density * (flow_rate / (Real.pi * (inner_diameter / 2) ^ 2)) *
              inner_diameter / fluid_viscosity) ^ (0.8:ℝ) *
            (fluid_viscosity * fluid_heat_capacity / fluid_thermal_conductivity) ^ (0.4:ℝ) *
            fluid_thermal_conductivity / inner_diameter * Real.pi * inner_diameter)))) := by
  intro inner_diameter flow_rate fluid_thermal_conductivity fluid_viscosity fluid_density
    fluid_heat_capacity
  constructor
  · intro hguard
    simp only [ThermalResistanceCalculator.calculate_convection_resistance]
    rw [if_pos hguard]
  · intro hD hq hmu hlam
    have harea : Real.pi * (inner_diameter / 2) ^ 2 ≠ 0 := by positivity
    have hguard : ¬(inner_diameter ≤ 0 ∨ flow_rate ≤ 0) := by push_neg; exact ⟨hD, hq⟩
    constructor
    · intro hlam_re
      have hden : 3.66 * fluid_thermal_conductivity / inner_diameter * Real.pi *
          inner_diameter ≠ 0 := by
        apply mul_ne_zero (mul_ne_zero _ Real.pi_ne_zero) (ne_of_gt hD)
        exact div_ne_zero (mul_ne_zero (by norm_num) hlam) (ne_of_gt hD)
      simp only [ThermalResistanceCalculator.calculate_convection_resistance]
      rw [if_neg hguard, pyDiv_eval _ harea, ok_bind, pyDiv_eval _ hmu, ok_bind,
        pyDiv_eval _ hlam, ok_bind, if_neg (not_lt.mpr hlam_re), ok_bind,
        pyDiv_eval _ hden]
    · intro hturb hpr
      have hre : (0:ℝ) < fluid_density * (flow_rate / (Real.pi * (inner_diameter / 2) ^ 2)) *
          inner_diameter / fluid_viscosity := lt_trans (by norm_num) hturb
      have hrey : (0:ℝ) < (fluid_density * (flow_rate / (Real.pi * (inner_diameter / 2) ^ 2)) *
          inner_diameter / fluid_viscosity) ^ (0.8:ℝ) := Real.rpow_pos_of_pos hre _
      have hprp : (0:ℝ) < (fluid_viscosity * fluid_heat_capacity /
          fluid_thermal_conductivity) ^ (0.4:ℝ) := Real.rpow_pos_of_pos hpr _
      have hden : 0.023 *
          (fluid_density * (flow_rate / (Real.pi * (inner_diameter / 2) ^ 2)) *
            inner_diameter / fluid_viscosity) ^ (0.8:ℝ) *
          (fluid_viscosity * fluid_heat_capacity / fluid_thermal_conductivity) ^ (0.4:ℝ) *
          fluid_thermal_conductivity / inner_diameter * Real.pi * inner_diameter ≠ 0 := by
        apply mul_ne_zero (mul_ne_zero _ Real.pi_ne_zero) (ne_of_gt hD)
        apply div_ne_zero _ (ne_of_gt hD)
        apply mul_ne_zero _ hlam
        apply mul_ne_zero (mul_ne_zero (by norm_num) (ne_of_gt hrey)) (ne_of_gt hprp)
      simp only [ThermalResistanceCalculator.calculate_convection_resistance]
      rw [if_neg hguard, pyDiv_eval _ harea, ok_bind, pyDiv_eval _ hmu, ok_bind,
        pyDiv_eval _ hlam, ok_bind, if_pos hturb, pyPow_eval _ hre.le, ok_bind,
        pyPow_eval _ hpr.le, ok_bind, ok_bind, pyDiv_eval _ hden]

theorem heating_ne_cooling :
    VDI4640Calculator.heating_case ≠ VDI4640Calculator.cooling_case := by
  simp [VDI4640Calculator.heating_case, VDI4640Calculator.cooling_case]

/-- On every successful `calculate_complete` call, the final depth is the
maximum of the two per-mode depths and `design_case` records the selected
mode. -/
theorem complete_design_case_spec
    (gtc gtd tund bd bdi : ℝ) (n : ℤ) (rb ahd phl : ℝ) (mhf : Option (List ℝ))
    (acd pcl : ℝ) (mcf : Option (List ℝ)) (cph cpc tmin tmax dtf : ℝ) :
    VDI4640Calculator.design_case_spec (VDI4640Calculator.calculate_complete gtc gtd tund
      bd bdi n rb ahd phl mhf acd pcl mcf cph cpc tmin tmax dtf) := by
  intro r hok
  simp only [VDI4640Calculator.calculate_complete] at hok
  rw [except_bind_ok] at hok
  obtain ⟨resistances, hres, hok⟩ := hok
  rw [except_bind_ok] at hok
  obtain ⟨loads_heating, hlh, hok⟩ := hok
  rw [except_bind_ok] at hok
  obtain ⟨loads_cooling, hlc, hok⟩ := hok
  rw [except_bind_ok] at hok
  obtain ⟨h_heating, hhh, hok⟩ := hok
  rw [except_bind_ok] at hok
  obtain ⟨h_cooling, hhc, hok⟩ := hok
  rw [except_bind_ok] at hok
  obtain ⟨wph, hwph, hok⟩ := hok
  rw [except_bind_ok] at hok
  obtain ⟨wpc, hwpc, hok⟩ := hok
  simp only [Except.ok.injEq] at hok
  subst hok
  by_cases hcmp : h_heating > h_cooling
  · simp only [if_pos hcmp]
    exact ⟨(max_eq_left hcmp.le).symm, Or.inl trivial, iff_of_true trivial hcmp,
      fun _ => trivial, fun habs => absurd habs heating_ne_cooling⟩
  · simp only [if_neg hcmp]
    exact ⟨(max_eq_right (not_lt.mp hcmp)).symm, Or.inr trivial,
      iff_of_false (fun habs => heating_ne_cooling habs.symm) hcmp,
      fun habs => absurd habs.symm heating_ne_cooling, fun _ => trivial⟩

/-- The worked design-case example of the specification: 15000 kWh heating
demand with 8 kW peak against 1000 kWh cooling with 2 kW peak on standard
ground yields a heating-dominated design. -/
theorem complete_spec_example :
    ∃ r, VDI4640Calculator.calculate_complete 2 (1/1000000) 10 152 100 1 (1/10) 15000 8
        none 1000 2 none 4 4 (-2) 35 3 = .ok r ∧
      r.design_case = VDI4640Calculator.heating_case ∧
      r.required_depth_final = r.required_depth_heating := by
  obtain ⟨R, hres, hRg, hRp, hRpk⟩ := resistances_ok_nonneg 2 (1/1000000) 100 (152/2000)
    (by norm_num) (by norm_num) (by norm_num) (by norm_num)
  have hlh : VDI4640Calculator.calculate_loads 15000 8
      [0.155, 0.148, 0.125, 0.099, 0.064, 0.0, 0.0, 0.0, 0.061, 0.087, 0.117, 0.144] 4 true =
      .ok ⟨93750/73, 174375/73, 6000⟩ := by
    rw [calculate_loads_eval 15000 8 0.155
      [0.148, 0.125, 0.099, 0.064, 0.0, 0.0, 0.0, 0.061, 0.087, 0.117, 0.144] 4 true
      (by norm_num)]
    simp only [Except.ok.injEq, VDI4640Calculator.Loads.mk.injEq]
    norm_num [List.foldl, max_def]
  have hlc : VDI4640Calculator.calculate_loads 1000 2
      [0.0, 0.0, 0.0, 0.05, 0.15, 0.25, 0.30, 0.25, 0.0, 0.0, 0.0, 0.0] 4 false =
      .ok ⟨31250/219, 37500/73, 2500⟩ := by
    rw [calculate_loads_eval 1000 2 0.0
      [0.0, 0.0, 0.05, 0.15, 0.25, 0.30, 0.25, 0.0, 0.0, 0.0, 0.0] 4 false (by norm_num)]
    simp only [Except.ok.injEq, VDI4640Calculator.Loads.mk.injEq]
    norm_num [List.foldl, max_def]
  have hbl1 : VDI4640Calculator.calculate_borehole_length (93750/73) (174375/73) 6000
      R.r_grundlast R.r_per R.r_peak (1/10) 10 (-2) 1 true =
      .ok ((93750/73 * (R.r_grundlast + 1/10) + 174375/73 * (R.r_per + 1/10) +
        6000 * (R.r_peak + 1/10)) / 12) := by
    rw [borehole_length_eval _ _ _ _ _ _ _ _ _ _ _ (by norm_num) one_ne_zero]
    congr 1
    rw [abs_of_pos (by norm_num : (0:ℝ) < 93750/73),
      abs_of_pos (by norm_num : (0:ℝ) < 174375/73),
      abs_of_pos (by norm_num : (0:ℝ) < 6000)]
    norm_num
  have hbl2 : VDI4640Calculator.calculate_borehole_length (31250/219) (37500/73) 2500
      R.r_grundlast R.r_per R.r_peak (1/10) 10 35 1 false =
      .ok ((31250/219 * (R.r_grundlast + 1/10) + 37500/73 * (R.r_per + 1/10) +
        2500 * (R.r_peak + 1/10)) / 25) := by
    rw [borehole_length_eval _ _ _ _ _ _ _ _ _ _ _ (by norm_num) one_ne_zero]
    congr 1
    rw [abs_of_pos (by norm_num : (0:ℝ) < 31250/219),
      abs_of_pos (by norm_num : (0:ℝ) < 37500/73),
      abs_of_pos (by norm_num : (0:ℝ) < 2500)]
    norm_num
  have hNh : (0:ℝ) < (93750/73 * (R.r_grundlast + 1/10) + 174375/73 * (R.r_per + 1/10) +
      6000 * (R.r_peak + 1/10)) / 12 := by
    apply div_pos _ (by norm_num)
    nlinarith
  have hcmp : (93750/73 * (R.r_grundlast + 1/10) + 174375/73 * (R.r_per + 1/10) +
      6000 * (R.r_peak + 1/10)) / 12 >
      (31250/219 * (R.r_grundlast + 1/10) + 37500/73 * (R.r_per + 1/10) +
        2500 * (R.r_peak + 1/10)) / 25 := by
    rw [gt_iff_lt, div_lt_div_iff (by norm_num) (by norm_num)]
    nlinarith
  obtain ⟨vh, hwph⟩ := wp_exit_ok
    ((93750/73 * (R.r_grundlast + 1/10) + 174375/73 * (R.r_per + 1/10) +
      6000 * (R.r_peak + 1/10)) / 12) 1 (93750/73) (174375/73) 6000
    R.r_grundlast R.r_per R.r_peak (1/10) 2 10 3 true hNh one_ne_zero
  obtain ⟨vc, hwpc⟩ := wp_exit_ok
    ((93750/73 * (R.r_grundlast + 1/10) + 174375/73 * (R.r_per + 1/10) +
      6000 * (R.r_peak + 1/10)) / 12) 1 (31250/219) (37500/73) 2500
    R.r_grundlast R.r_per R.r_peak (1/10) 2 10 3 false hNh one_ne_zero
  refine ⟨{
      required_depth_heating := (93750/73 * (R.r_grundlast + 1/10) +
        174375/73 * (R.r_per + 1/10) + 6000 * (R.r_peak + 1/10)) / 12,
      required_depth_cooling := (31250/219 * (R.r_grundlast + 1/10) +
        37500/73 * (R.r_per + 1/10) + 2500 * (R.r_peak + 1/10)) / 25,
      required_depth_final := (93750/73 * (R.r_grundlast + 1/10) +
        174375/73 * (R.r_per + 1/10) + 6000 * (R.r_peak + 1/10)) / 12,
      design_case := VDI4640Calculator.heating_case,
      t_wp_aus_heating_min := vh.1,
      t_wp_aus_cooling_max := vc.1,
      delta_t_grundlast_heating := vh.2.1,
      delta_t_per_heating := vh.2.2.1,
      delta_t_peak_heating := vh.2.2.2,
      delta_t_fluid_heating := 3,
      delta_t_grundlast_cooling := vc.2.1,
      delta_t_per_cooling := vc.2.2.1,
      delta_t_peak_cooling := vc.2.2.2,
      delta_t_fluid_cooling := 3,
      r_grundlast := R.r_grundlast,
      r_per := R.r_per,
      r_peak := R.r_peak,
      r_borehole := 1/10,
      q_nettogrundlast_heating := 93750/73,
      q_per_heating := 174375/73,
      q_peak_heating := 6000,
      q_nettogrundlast_cooling := 31250/219,
      q_per_cooling := 37500/73,
      q_peak_cooling := 2500,
      g_grundlast := R.g_grundlast,
      g_per := R.g_per,
      g_peak := R.g_peak }, ?_, rfl, rfl⟩
  simp only [VDI4640Calculator.calculate_complete, Option.getD_none,
    VDI4640Calculator.default_monthly_heating_factors,
    VDI4640Calculator.default_monthly_cooling_factors, hres, hlh, hlc, ok_bind,
    hbl1, hbl2, if_pos hcmp, hwph, hwpc]

/-- Claim C1: for every VDI4640 sizing call that completes, the final
design depth equals the maximum of the independently computed heating and
cooling depths, and `design_case` is `"heating"` exactly when the heating
depth was selected (`h_heating > h_cooling`) and `"cooling"` otherwise;
moreover the specification example (15000 kWh / 8 kW heating against
1000 kWh / 2 kW cooling, `λ = 2`, `α = 10⁻⁶`, `T₀ = 10`, limits −2/35 °C,
COP = EER = 4, N = 1) completes with `design_case = "heating"` and
`required_depth_final = required_depth_heating`. -/
theorem C1_design_case_selection :
    (∀ (ground_thermal_conductivity ground_thermal_diffusivity t_undisturbed
        borehole_diameter borehole_depth_initial : ℝ) (n_boreholes : ℤ)
        (r_borehole annual_heating_demand peak_heating_load : ℝ)
        (monthly_heating_factors : Option (List ℝ))
        (annual_cooling_demand peak_cooling_load : ℝ)
        (monthly_cooling_factors : Option (List ℝ))
        (heat_pump_cop_heating heat_pump_cop_cooling t_fluid_min_required
        t_fluid_max_required delta_t_fluid : ℝ),
      VDI4640Calculator.design_case_spec (VDI4640Calculator.calculate_complete
        ground_thermal_conductivity ground_thermal_diffusivity t_undisturbed
        borehole_diameter borehole_depth_initial n_boreholes r_borehole
        annual_heating_demand peak_heating_load monthly_heating_factors
        annual_cooling_demand peak_cooling_load monthly_cooling_factors
        heat_pump_cop_heating heat_pump_cop_cooling t_fluid_min_required
        t_fluid_max_required delta_t_fluid)) ∧
    (∃ r, VDI4640Calculator.calculate_complete 2 (1/1000000) 10 152 100 1 (1/10) 15000 8
        none 1000 2 none 4 4 (-2) 35 3 = .ok r ∧
      r.design_case = VDI4640Calculator.heating_case ∧
      r.required_depth_final = r.required_depth_heating) :=
  ⟨fun a b c d e f g h i j k l m o p q s t => complete_design_case_spec a b c d e f g h i j k l m o p q s t,
    complete_spec_example⟩

theorem C9_witness :
    ThermalResistanceCalculator.calculate_convection_resistance 1 1 1 1 1 1 =
      .ok (1 / (3.66 * 1 / 1 * Real.pi * 1)) := by
  have harea : (0:ℝ) < Real.pi * ((1:ℝ) / 2) ^ 2 := by positivity
  have hre : (1:ℝ) * (1 / (Real.pi * ((1:ℝ) / 2) ^ 2)) * 1 / 1 ≤ 2300 := by
    have hpi := Real.pi_gt_three
    rw [show (1:ℝ) * (1 / (Real.pi * ((1:ℝ) / 2) ^ 2)) * 1 / 1 =
        1 / (Real.pi * ((1:ℝ) / 2) ^ 2) by ring]
    rw [div_le_iff harea]
    nlinarith
  exact ((C9_convection_formula 1 1 1 1 1 1).2 (by norm_num) (by norm_num) (by norm_num)
    (by norm_num)).1 hre

theorem round_le_round_of_le {x y : ℝ} (h : x ≤ y) : round x ≤ round y := by
  rw [round_eq, round_eq]
  exact Int.floor_le_floor (by linarith)

/-- `round(x, 1)` stays inside `[20, 300]` when `x` does. -/
theorem pyRound_one_bounds {x : ℝ} (h1 : 20 ≤ x) (h2 : x ≤ 300) :
    20 ≤ pyRound 1 x ∧ pyRound 1 x ≤ 300 := by
  have hlo : (200 : ℤ) ≤ round (x * 10 ^ 1) := by
    have h200 : round (((200 : ℤ) : ℝ)) = 200 := round_intCast 200
    have := round_le_round_of_le (show ((200 : ℤ) : ℝ) ≤ x * 10 ^ 1 by push_cast; nlinarith)
    rwa [h200] at this
  have hhi : round (x * 10 ^ 1) ≤ (3000 : ℤ) := by
    have h3000 : round (((3000 : ℤ) : ℝ)) = 3000 := round_intCast 3000
    have := round_le_round_of_le (show x * 10 ^ 1 ≤ ((3000 : ℤ) : ℝ) by push_cast; nlinarith)
    rwa [h3000] at this
  have hlo' : (200 : ℝ) ≤ (round (x * 10 ^ 1) : ℤ) := by exact_mod_cast hlo
  have hhi' : ((round (x * 10 ^ 1) : ℤ) : ℝ) ≤ 3000 := by exact_mod_cast hhi
  norm_num at hlo' hhi'
  constructor
  · rw [pyRound]
    norm_num
    linarith
  · rw [pyRound]
    norm_num
    linarith

/-- Every successful run of the loop body either keeps the depth (on
convergence) or clamps the adjusted depth into `[20, 300]`. -/
theorem iteration_body_next_bounds {p : BoreholeCalculator.BoreholeParams}
    {net_annual_load peak_ground_extraction peak_ground_injection : ℝ}
    {monthly_heating_factors : List ℝ} {depth : ℝ} {sat : Bool} {nd : ℝ}
    {out : BoreholeCalculator.IterOut}
    (h : BoreholeCalculator.iteration_body p net_annual_load peak_ground_extraction
      peak_ground_injection monthly_heating_factors depth = .ok (sat, nd, out)) :
    (sat = true → nd = depth) ∧ (sat = false → 20 ≤ nd ∧ nd ≤ 300) := by
  simp only [BoreholeCalculator.iteration_body] at h
  rw [except_bind_ok] at h
  obtain ⟨rba, hrba, h⟩ := h
  rw [except_bind_ok] at h
  obtain ⟨rc, hrc, h⟩ := h
  rw [except_bind_ok] at h
  obtain ⟨alpha, halpha, h⟩ := h
  rw [except_bind_ok] at h
  obtain ⟨tab, htab, h⟩ := h
  rw [except_bind_ok] at h
  obtain ⟨mh, hmh, h⟩ := h
  rw [except_bind_ok] at h
  obtain ⟨gv, hgv, h⟩ := h
  rw [except_bind_ok] at h
  obtain ⟨qpm, hqpm, h⟩ := h
  rw [except_bind_ok] at h
  obtain ⟨gp, hgp, h⟩ := h
  rw [except_bind_ok] at h
  obtain ⟨qppm, hqppm, h⟩ := h
  rw [except_bind_ok] at h
  obtain ⟨pf, hpf, h⟩ := h
  rw [except_bind_ok] at h
  obtain ⟨ftm, hftm, h⟩ := h
  split at h
  · simp only [Except.ok.injEq, Prod.mk.injEq] at h
    obtain ⟨hs, hd, -⟩ := h
    constructor
    · intro _
      exact hd.symm
    · intro hfalse
      rw [← hs] at hfalse
      cases hfalse
  · simp only [Except.ok.injEq, Prod.mk.injEq] at h
    obtain ⟨hs, hd, -⟩ := h
    constructor
    · intro htrue
      rw [← hs] at htrue
      cases htrue
    · intro _
      refine ⟨hd ▸ le_max_left 20 _, hd ▸ ?_⟩
      exact max_le (by norm_num) (min_le_left 300 _)

/-- The sizing loop counts at most `fuel` further iterations, flags the
warning exactly on exhaustion, and returns a depth in `[20, 300]` when the
starting depth is. -/
theorem sizing_loop_bounds (p : BoreholeCalculator.BoreholeParams)
    (net_annual_load peak_ground_extraction peak_ground_injection : ℝ)
    (monthly_heating_factors : List ℝ) (fuel : ℕ) :
    ∀ (done : ℕ) (depth : ℝ) (out : BoreholeCalculator.IterOut) (d2 : ℝ) (used : ℕ)
      (warned : Bool),
    BoreholeCalculator.sizing_loop p net_annual_load peak_ground_extraction
      peak_ground_injection monthly_heating_factors fuel done depth =
      .ok (out, d2, used, warned) →
    done < used ∧ used ≤ done + fuel ∧ (warned = true → used = done + fuel) ∧
    (20 ≤ depth → depth ≤ 300 → 20 ≤ d2 ∧ d2 ≤ 300) := by
  induction fuel with
  | zero =>
    intro done depth out d2 used warned h
    simp [BoreholeCalculator.sizing_loop] at h
  | succ fuel ih =>
    intro done depth out d2 used warned h
    simp only [BoreholeCalculator.sizing_loop] at h
    rw [except_bind_ok] at h
    obtain ⟨step, hstep, h⟩ := h
    obtain ⟨sat, nd, outS⟩ := step
    have hnext := iteration_body_next_bounds hstep
    dsimp only at h
    cases sat with
    | true =>
      rw [if_pos rfl] at h
      simp only [Except.ok.injEq, Prod.mk.injEq] at h
      obtain ⟨-, hd2, hused, hwarn⟩ := h
      subst hd2
      subst hused
      subst hwarn
      refine ⟨Nat.lt_succ_of_le le_rfl, by omega, (by intro hw; cases hw), ?_⟩
      intro ha hb
      exact ⟨ha, hb⟩
    | false =>
      rw [if_neg (by simp)] at h
      have hnd : 20 ≤ nd ∧ nd ≤ 300 := hnext.2 rfl
      by_cases hf : fuel = 0
      · subst hf
        rw [if_pos rfl] at h
        simp only [Except.ok.injEq, Prod.mk.injEq] at h
        obtain ⟨-, hd2, hused, hwarn⟩ := h
        subst hd2
        subst hused
        refine ⟨Nat.lt_succ_of_le le_rfl, by omega, fun _ => by omega, ?_⟩
        intro _ _
        exact hnd
      · rw [if_neg hf] at h
        have := ih (done + 1) nd out d2 used warned h
        refine ⟨by omega, by omega, fun hw => by have := this.2.2.1 hw; omega, ?_⟩
        intro _ _
        exact this.2.2.2 hnd.1 hnd.2

/-- `calculate_required_depth` returns a depth in `[20, 300]` whenever it
returns at all and the initial depth lies in that interval. -/
theorem required_depth_bounds (p : BoreholeCalculator.BoreholeParams)
    (r : BoreholeCalculator.BoreholeResult)
    (hok : BoreholeCalculator.calculate_required_depth p = .ok r)
    (h1 : 20 ≤ p.initial_depth) (h2 : p.initial_depth ≤ 300) :
    20 ≤ r.required_depth ∧ r.required_depth ≤ 300 := by
  simp only [BoreholeCalculator.calculate_required_depth] at hok
  rw [except_bind_ok] at hok
  obtain ⟨eff, heff, hok⟩ := hok
  rw [except_bind_ok] at hok
  obtain ⟨c1, hc1, hok⟩ := hok
  rw [except_bind_ok] at hok
  obtain ⟨c2, hc2, hok⟩ := hok
  rw [except_bind_ok] at hok
  obtain ⟨lr, hlr, hok⟩ := hok
  obtain ⟨out, d2, used, warned⟩ := lr
  rw [except_bind_ok] at hok
  obtain ⟨mt, hmt, hok⟩ := hok
  simp only [Except.ok.injEq] at hok
  subst hok
  have hb := sizing_loop_bounds p _ _ _ _ 20 0 p.initial_depth out d2 used warned hlr
  exact pyRound_one_bounds (hb.2.2.2 h1 h2).1 (hb.2.2.2 h1 h2).2

/-- Claim C7: `calculate_required_depth` is claimed to return a result
without raising for every input.  This fails: with a zero heat-pump COP the
efficiency-factor division `(COP - 1) / COP` raises a `ZeroDivisionError`
before the iteration loop starts (and a zero ground heat capacity would
likewise raise inside the loop body). -/
theorem C7_counterexample :
    BoreholeCalculator.calculate_required_depth zero_cop_params =
      .error zero_division_error := by
  simp only [BoreholeCalculator.calculate_required_depth, zero_cop_params, zero_load_params]
  rw [pyDiv_zero, error_bind]

/-- For a `"single-u"` configuration the resistance dispatch selects the
single-U-tube calculation. -/
theorem dispatch_single_u (br pr pt ss pc gc : ℝ) :
    BoreholeCalculator.calculate_borehole_resistance BoreholeCalculator.single_u_marker
      br pr pt ss pc gc =
    ThermalResistanceCalculator.calculate_single_u_tube_resistance br pr ss pc gc := by
  simp only [BoreholeCalculator.calculate_borehole_resistance]
  rw [if_pos (by decide)]

/-- The single-U borehole resistance succeeds on the default geometry
(76 mm borehole radius, 20 mm pipe radius, 52 mm shank spacing). -/
theorem single_u_ok_default :
    ∃ v, ThermalResistanceCalculator.calculate_single_u_tube_resistance
      (0.152 / 2) (0.040 / 2) 0.052 0.42 1.3 = .ok v := by
  have hE : (0:ℝ) < (0.052 / 2 - -0.052 / 2) ^ 2 + ((0:ℝ) - 0) ^ 2 := by norm_num
  have hs : 0 < Real.sqrt ((0.052 / 2 - -0.052 / 2) ^ 2 + ((0:ℝ) - 0) ^ 2) :=
    Real.sqrt_pos.mpr hE
  have hs3 : (5 / 19 : ℝ) < Real.sqrt (0.052 / (2 * (0.152 / 2))) := by
    rw [show (0.052 / (2 * (0.152 / 2)) : ℝ) = 13 / 38 by norm_num]
    rw [Real.lt_sqrt (by norm_num)]
    norm_num
  have hsig : (1:ℝ) < 0.152 / 2 / (0.040 / 2) * Real.sqrt (0.052 / (2 * (0.152 / 2))) := by
    have h38 : (0.152 / 2 / (0.040 / 2) : ℝ) = 19 / 5 := by norm_num
    rw [h38]
    linarith [hs3]
  exact ⟨_, by
    simp only [ThermalResistanceCalculator.calculate_single_u_tube_resistance]
    rw [pyDiv_eval _ (by norm_num : ((1.3:ℝ) + 0.42) ≠ 0)]
    simp only [ok_bind]
    rw [pySqrt_eval (le_of_lt hE)]
    simp only [ok_bind]
    rw [pyDiv_eval _ (by norm_num : ((2:ℝ) * (0.040 / 2)) ≠ 0)]
    simp only [ok_bind]
    rw [pyLog_eval (div_pos hs (by norm_num))]
    simp only [ok_bind]
    rw [pyDiv_eval _ (mul_ne_zero (by norm_num : ((0.152:ℝ) / 2) ≠ 0) (ne_of_gt hs))]
    simp only [ok_bind]
    rw [pyLog_eval (div_pos (by norm_num) (mul_pos (by norm_num) hs))]
    simp only [ok_bind]
    rw [pyDiv_eval _ (by positivity : ((2:ℝ) * Real.pi * 1.3) ≠ 0)]
    simp only [ok_bind]
    rw [pyDiv_eval _ (by norm_num : ((0.040:ℝ) / 2) ≠ 0)]
    simp only [ok_bind]
    rw [pyDiv_eval _ (by norm_num : ((2:ℝ) * (0.152 / 2)) ≠ 0)]
    simp only [ok_bind]
    rw [pySqrt_eval (by norm_num : (0:ℝ) ≤ 0.052 / (2 * (0.152 / 2)))]
    simp only [ok_bind]
    rw [if_pos hsig]
    rw [pyDiv_eval 1 (by positivity : ((2:ℝ) * Real.pi * 1.3) ≠ 0)]
    simp only [ok_bind]
    rw [pyLog_eval (by norm_num : (0:ℝ) < 0.152 / 2 / (0.040 / 2))]
    simp only [ok_bind]
    rw [pyDiv_eval _ (by norm_num : ((0.052:ℝ)) ≠ 0)]
    simp only [ok_bind]
    rw [pyLog_eval (by norm_num : (0:ℝ) < 0.152 / 2 / 0.052)]
    simp only [ok_bind]
    rfl⟩

/-- The convection resistance succeeds on the default fluid data with a low
(laminar) flow rate. -/
theorem conv_ok_default :
    ∃ v, ThermalResistanceCalculator.calculate_convection_resistance
      (0.040 - 2 * 0.0037) (1 / 100000) 0.48 0.004 1030 3800 = .ok v := by
  have hd : (0:ℝ) < 0.040 - 2 * 0.0037 := by norm_num
  have harea : (0:ℝ) < Real.pi * ((0.040 - 2 * 0.0037) / 2) ^ 2 :=
    mul_pos Real.pi_pos (pow_pos (by norm_num) 2)
  have hre : ¬((2300:ℝ) < 1030 * (1 / 100000 / (Real.pi * ((0.040 - 2 * 0.0037) / 2) ^ 2)) *
      (0.040 - 2 * 0.0037) / 0.004) := by
    push_neg
    have hpi3 : (3:ℝ) < Real.pi := Real.pi_gt_three
    calc 1030 * (1 / 100000 / (Real.pi * ((0.040 - 2 * 0.0037) / 2) ^ 2)) *
          (0.040 - 2 * 0.0037) / 0.004
        ≤ 1030 * (1 / 100000 / (3 * ((0.040 - 2 * 0.0037) / 2) ^ 2)) *
          (0.040 - 2 * 0.0037) / 0.004 := by
          gcongr
      _ ≤ 2300 := by norm_num
  exact ⟨_, by
    simp only [ThermalResistanceCalculator.calculate_convection_resistance]
    rw [if_neg (by norm_num : ¬((0.040:ℝ) - 2 * 0.0037 ≤ 0 ∨ (1:ℝ) / 100000 ≤ 0))]
    rw [pyDiv_eval _ (ne_of_gt harea)]
    simp only [ok_bind]
    rw [pyDiv_eval _ (by norm_num : ((0.004:ℝ)) ≠ 0)]
    simp only [ok_bind]
    rw [pyDiv_eval _ (by norm_num : ((0.48:ℝ)) ≠ 0)]
    simp only [ok_bind]
    rw [if_neg hre]
    simp only [ok_bind]
    rw [pyDiv_eval 1 (ne_of_gt (mul_pos (mul_pos (div_pos (by norm_num) hd) Real.pi_pos) hd))]⟩

/-- On positive depth, diffusivity and years and a nonzero radius the
g-function table generation succeeds and the g-value list is non-empty
(50 sample points). -/
theorem generate_table_ok (H r alpha : ℝ) (years : ℕ) (hH : 0 < H) (hr : r ≠ 0)
    (ha : 0 < alpha) (hy : 0 < years) :
    ∃ tab, GFunctionCalculator.generate_g_function_table H r alpha years = .ok tab ∧
      tab.2 ≠ [] := by
  have h9 : (9:ℝ) * alpha ≠ 0 := by positivity
  have hts : (0:ℝ) < H ^ 2 / (9 * alpha) := by positivity
  have hyr : (0:ℝ) < (years:ℝ) := by exact_mod_cast hy
  have hend : (0:ℝ) < (years:ℝ) * 365.25 * 24 * 3600 := by positivity
  have hpt : ∀ t ∈ GFunctionCalculator.logspace50 (Real.log 3600 / Real.log 10)
      (Real.log ((years:ℝ) * 365.25 * 24 * 3600) / Real.log 10),
      ∃ y, GFunctionCalculator.g_table_point H r alpha (H ^ 2 / (9 * alpha)) t = .ok y := by
    intro t ht
    have htpos : 0 < t := by
      simp only [GFunctionCalculator.logspace50, List.mem_map, List.mem_range] at ht
      obtain ⟨i, -, rfl⟩ := ht
      positivity
    obtain ⟨g, hg, -⟩ := GFunctionCalculator.fls_ok htpos hH ha hr
    exact ⟨(Real.log (t / (H ^ 2 / (9 * alpha))), g), by
      simp only [GFunctionCalculator.g_table_point]
      rw [hg]
      simp only [ok_bind]
      rw [pyDiv_eval t (ne_of_gt hts)]
      simp only [ok_bind]
      rw [pyLog_eval (div_pos htpos hts)]
      simp only [ok_bind]⟩
  obtain ⟨ys, hys, hlen⟩ := exceptMapM_ok _ _ hpt
  refine ⟨(ys.map Prod.fst, ys.map Prod.snd), ?_, ?_⟩
  · simp only [GFunctionCalculator.generate_g_function_table]
    rw [pyDiv_eval _ h9]
    simp only [ok_bind]
    rw [pyLog10_eval (by norm_num : (0:ℝ) < 3600)]
    simp only [ok_bind]
    rw [pyLog10_eval hend]
    simp only [ok_bind]
    rw [hys]
    simp only [ok_bind]
  · show ys.map Prod.snd ≠ []
    have h50 : ys.length = 50 := by
      rw [hlen, GFunctionCalculator.logspace50, List.length_map, List.length_range]
    intro hnil
    have hl := congrArg List.length hnil
    rw [List.length_map, h50] at hl
    simp at hl

/-- The g-value interpolation succeeds whenever the table is non-empty and
time, depth and diffusivity are positive. -/
theorem interpolate_g_ok (L1 L2 : List ℝ) (time H alpha : ℝ) (hne : L2 ≠ [])
    (ht : 0 < time) (hH : 0 < H) (ha : 0 < alpha) :
    ∃ g, GFunctionCalculator.interpolate_g L1 L2 time H alpha = .ok g := by
  have hts : (0:ℝ) < H ^ 2 / (9 * alpha) := by positivity
  exact ⟨_, by
    simp only [GFunctionCalculator.interpolate_g]
    rw [if_neg hne]
    rw [pyDiv_eval _ (by positivity : (9:ℝ) * alpha ≠ 0)]
    simp only [ok_bind]
    rw [pyDiv_eval time (ne_of_gt hts)]
    simp only [ok_bind]
    rw [pyLog_eval (div_pos ht hts)]
    simp only [ok_bind]
    rfl⟩

/-- The default monthly heating factor list is non-empty, so its maximum is
defined. -/
theorem pyMaxList_default_heating :
    ∃ m, pyMaxList VDI4640Calculator.default_monthly_heating_factors = .ok m := ⟨_, rfl⟩

/-- With zero thermal loads the first iteration of the sizing loop already
satisfies both fluid temperature bounds at the default parameters, so the
body converges and keeps the depth at `100 m`. -/
theorem zero_load_body_converges :
    ∃ out, BoreholeCalculator.iteration_body zero_load_params 0 0 0
      VDI4640Calculator.default_monthly_heating_factors 100 = .ok (true, 100, out) := by
  obtain ⟨rba, hrba⟩ := single_u_ok_default
  have hdisp : BoreholeCalculator.calculate_borehole_resistance
      BoreholeCalculator.single_u_marker (0.152 / 2) (0.040 / 2) 0.0037 0.052 0.42 1.3 =
      .ok rba := by
    rw [dispatch_single_u]
    exact hrba
  obtain ⟨rc, hrc⟩ := conv_ok_default
  have halpha : pyDiv (3.4:ℝ) 2400000 = .ok (3.4 / 2400000) := pyDiv_eval _ (by norm_num)
  have hapos : (0:ℝ) < 3.4 / 2400000 := by norm_num
  obtain ⟨tab, htab, htne⟩ := generate_table_ok 100 (0.152 / 2) (3.4 / 2400000) 25
    (by norm_num) (by norm_num) hapos (by norm_num)
  obtain ⟨m, hm⟩ := pyMaxList_default_heating
  obtain ⟨g, hg⟩ := interpolate_g_ok tab.1 tab.2 (((25:ℕ) : ℝ) * 365.25 * 24 * 3600) 100
    (3.4 / 2400000) htne (by norm_num) (by norm_num) hapos
  obtain ⟨gp, hgp, -⟩ := GFunctionCalculator.fls_ok (show (0:ℝ) < 6 * 3600 by norm_num)
    (show (0:ℝ) < 100 by norm_num) hapos (show ((0.152:ℝ) / 2) ≠ 0 by norm_num)
  have h100 : (100:ℝ) ≠ 0 := by norm_num
  have hpi34 : (2 * Real.pi * 3.4 : ℝ) ≠ 0 := by positivity
  have hpen : GFunctionCalculator.calculate_temperature_penalty 0 3.4 100 g = 0 := by
    simp only [GFunctionCalculator.calculate_temperature_penalty]
    rw [if_neg (by norm_num : ¬((100:ℝ) ≤ 0 ∨ (3.4:ℝ) ≤ 0))]
    norm_num
  exact ⟨_, by
    simp only [BoreholeCalculator.iteration_body, zero_load_params]
    rw [hdisp]
    simp only [ok_bind]
    rw [hrc]
    simp only [ok_bind]
    rw [halpha]
    simp only [ok_bind]
    rw [htab]
    simp only [ok_bind]
    rw [hm]
    simp only [ok_bind]
    rw [hg]
    simp only [ok_bind]
    rw [pyDiv_eval 0 h100]
    simp only [ok_bind]
    rw [hgp]
    simp only [ok_bind]
    rw [pyDiv_eval (0 / 100) hpi34]
    simp only [ok_bind]
    rw [if_neg (lt_irrefl (0:ℝ))]
    simp only [ok_bind]
    split
    · rfl
    · rename_i hC
      exfalso
      exact hC ⟨by rw [hpen]; norm_num, by rw [hpen]; norm_num⟩⟩

/-- A complete converging run of the sizing loop: with zero loads it
terminates after exactly one of the 20 allowed iterations, keeps the
initial depth `100 m` and does not print the max-iterations warning. -/
theorem zero_load_loop_run :
    ∃ out, BoreholeCalculator.sizing_loop zero_load_params 0 0 0
      VDI4640Calculator.default_monthly_heating_factors 20 0 100 =
      .ok (out, 100, 1, false) := by
  obtain ⟨out, hbody⟩ := zero_load_body_converges
  refine ⟨out, ?_⟩
  show BoreholeCalculator.sizing_loop zero_load_params 0 0 0
      VDI4640Calculator.default_monthly_heating_factors (19 + 1) 0 100 =
      .ok (out, 100, 1, false)
  rw [BoreholeCalculator.sizing_loop]
  rw [hbody]
  simp only [ok_bind]
  rfl

/-- Claim C7: the iterative sizer runs for at most 20 iterations and every
adjusted depth is clamped into `[20, 300]` m, so a successful run started in
that interval returns a depth in it (amended: the loop body can also raise,
e.g. for a zero heat-pump COP, so it does not return on every input; the
result record carries no `MaxIterationsReached` status field — exhaustion is
only signalled by a printed warning, modelled here as the returned Boolean
flag, which is set exactly when all 20 iterations were used).  First
conjunct: any successful run of the 20-iteration loop executes between 1 and
20 iterations, flags the warning exactly on exhaustion, and keeps the depth
in `[20, 300]` when started there; second: the returned rounded depth of
`calculate_required_depth` stays in `[20, 300]`; third: a concrete
converging run (zero loads) terminates after one iteration without the
warning. -/
theorem C7_iteration_bounds :
    (∀ (p : BoreholeCalculator.BoreholeParams)
      (net_annual_load peak_ground_extraction peak_ground_injection : ℝ)
      (monthly_heating_factors : List ℝ) (depth : ℝ)
      (out : BoreholeCalculator.IterOut) (final_depth : ℝ) (used : ℕ) (warned : Bool),
      BoreholeCalculator.sizing_loop p net_annual_load peak_ground_extraction
        peak_ground_injection monthly_heating_factors 20 0 depth =
        .ok (out, final_depth, used, warned) →
      0 < used ∧ used ≤ 20 ∧ (warned = true → used = 20) ∧
        (20 ≤ depth → depth ≤ 300 → 20 ≤ final_depth ∧ final_depth ≤ 300)) ∧
    (∀ (p : BoreholeCalculator.BoreholeParams) (r : BoreholeCalculator.BoreholeResult),
      BoreholeCalculator.calculate_required_depth p = .ok r →
      20 ≤ p.initial_depth → p.initial_depth ≤ 300 →
      20 ≤ r.required_depth ∧ r.required_depth ≤ 300) ∧
    (∃ out, BoreholeCalculator.sizing_loop zero_load_params 0 0 0
      VDI4640Calculator.default_monthly_heating_factors 20 0 100 =
      .ok (out, 100, 1, false)) := by
  refine ⟨?_, ?_, zero_load_loop_run⟩
  · intro p nal pge pgi mhf depth out final_depth used warned h
    obtain ⟨h1, h2, h3, h4⟩ :=
      sizing_loop_bounds p nal pge pgi mhf 20 0 depth out final_depth used warned h
    exact ⟨h1, by omega, fun hw => by have := h3 hw; omega, h4⟩
  · exact fun p r h h1 h2 => required_depth_bounds p r h h1 h2
